import Mathlib

/-!
bosh-bootloader: command-line resolution

A shallow embedding of `application/command_line_parser.go` and of
`SSH.Execute` of `commands/ssh.go`.

* Go strings are Lean strings, read as sequences of characters (splitting at
  the ASCII character `=` is the same on bytes and on characters); a Go slice
  of strings is a `List String` (a nil slice and an empty slice are both `[]`).
* A Go `error` is represented by its message; `none` is the nil error.
* The collaborators of the parser (usage callback, command registry,
  environment accessor, working-directory accessor, command finder and
  flag-set primitive) are fields of `CommandLineParser`; the calls made to the
  effectful ones are recorded, in order, in a trace of `Event`s.
-/

namespace BoshBootloader

/-! ## Data model -/

/-- A Go `error`, represented by its message. -/
abbrev GoError := String

/-- The externally observable calls a parse makes on its collaborators. -/
inductive Event where
  | usage
  | envGet (name : String)
  | getwd
deriving DecidableEq, Repr

/-- The structure `CommandLineConfiguration` of `command_line_parser.go`, lines 14-22. -/
structure CommandLineConfiguration where
  Command : String
  SubcommandFlags : List String
  StateDir : String
  Debug : Bool
  help : Bool
  version : Bool
deriving DecidableEq, Repr

/-- The Go zero value `CommandLineConfiguration{}`. -/
def CommandLineConfiguration.zero : CommandLineConfiguration :=
  { Command := "", SubcommandFlags := [], StateDir := "", Debug := false,
    help := false, version := false }

/-- Result of the command finder (the fields `Parse` reads from it). -/
structure CommandFinderResult where
  GlobalFlags : List String
  Command : String
  OtherArgs : List String
deriving DecidableEq, Repr

/-- The four variables that `parseGlobalFlags` binds to the global flag set:
`StateDir`, `Debug`, `help` and `version` of the configuration. -/
structure GlobalFlagVars where
  StateDir : String
  Debug : Bool
  help : Bool
  version : Bool
deriving DecidableEq, Repr

/-- What `globalFlags.Parse(arguments)` leaves behind: the bound variables, the
remaining arguments (`globalFlags.Args()`) and the error. -/
structure FlagSetOutcome where
  vars : GlobalFlagVars
  args : List String
  err : Option GoError
deriving DecidableEq, Repr

/-- The structure `CommandLineParser` (lines 24-28) together with the package-level
collaborators it calls: `getwd` (line 12), `NewCommandFinder().FindCommand`
(line 48) and the flag set of package `flags` (lines 95-103).  The registry is
given by the list of its keys.  The usage callback has no result; its calls are
recorded in the trace. -/
structure CommandLineParser where
  commandSet : List String
  envGetter : String → String
  getwd : String × Option GoError
  FindCommand : List String → CommandFinderResult
  flagsParse : GlobalFlagVars → List String → FlagSetOutcome

/-! ## `strings.Split(argument, "=")` -/

/-- Go `strings.Split` for a one-character separator, on character lists. -/
def splitChars (sep : Char) : List Char → List (List Char)
  | [] => [[]]
  | c :: cs =>
    if c = sep then [] :: splitChars sep cs
    else
      match splitChars sep cs with
      | [] => [[c]]
      | w :: ws => (c :: w) :: ws

/-- Go `strings.Split(s, sep)` for a one-character separator. -/
def stringsSplit (s : String) (sep : Char) : List String :=
  (splitChars sep s.data).map String.mk

/-! ## The parser -/

/-- The loop of `validateGlobalFlags` (lines 113-122), with the local
`hasStateDir` as an accumulator. -/
def validateGlobalFlagsLoop (hasStateDir : Bool) : List String → Option GoError
  | [] => none
  | argument :: rest =>
    let name := (stringsSplit argument '=').headD ""
    if name = "--state-dir" ∨ name = "-state-dir" then
      if hasStateDir then
        some "Invalid usage: cannot specify global 'state-dir' flag more than once."
      else validateGlobalFlagsLoop true rest
    else validateGlobalFlagsLoop hasStateDir rest

/-- The function `validateGlobalFlags` (lines 111-125). -/
def validateGlobalFlags (arguments : List String) : Option GoError :=
  validateGlobalFlagsLoop false arguments

/-- Result of `parseGlobalFlags`: the three Go results and the trace. -/
structure GlobalFlagsResult where
  config : CommandLineConfiguration
  args : List String
  err : Option GoError
  trace : List Event
deriving DecidableEq, Repr

/-- The function `parseGlobalFlags` (lines 88-109). -/
def parseGlobalFlags (c : CommandLineParser)
    (commandLineConfiguration : CommandLineConfiguration)
    (arguments : List String) : GlobalFlagsResult :=
  match validateGlobalFlags arguments with
  | some err =>
    { config := commandLineConfiguration, args := [], err := some err, trace := [] }
  | none =>
    let debugEnv := c.envGetter "BBL_DEBUG"
    let out := c.flagsParse
      { StateDir := "", Debug := decide (debugEnv = "true"), help := false, version := false }
      arguments
    match out.err with
    | some err =>
      { config := CommandLineConfiguration.zero, args := [], err := some err,
        trace := [Event.envGet "BBL_DEBUG"] }
    | none =>
      { config :=
          { commandLineConfiguration with
            StateDir := out.vars.StateDir, Debug := out.vars.Debug,
            help := out.vars.help, version := out.vars.version },
        args := out.args, err := none, trace := [Event.envGet "BBL_DEBUG"] }

/-- Result of `setDefaultStateDirectory` and of `Parse`: configuration, error
and trace. -/
structure ParseResult where
  config : CommandLineConfiguration
  err : Option GoError
  trace : List Event
deriving DecidableEq, Repr

/-- The function `setDefaultStateDirectory` (lines 139-150). -/
def setDefaultStateDirectory (c : CommandLineParser)
    (commandLineConfiguration : CommandLineConfiguration) : ParseResult :=
  if commandLineConfiguration.StateDir = "" then
    match c.getwd with
    | (_, some err) =>
      { config := CommandLineConfiguration.zero, err := some err, trace := [Event.getwd] }
    | (wd, none) =>
      { config := { commandLineConfiguration with StateDir := wd }, err := none,
        trace := [Event.getwd] }
  else
    { config := commandLineConfiguration, err := none, trace := [] }

/-- The pending error of lines 50-57: `fmt.Errorf("Unrecognized command '%s'", ...)`
when the candidate is not in the registry and is not empty. -/
def commandNotFoundError (p : CommandLineParser) (command : String) : Option GoError :=
  if command ∈ p.commandSet then none
  else if command = "" then none
  else some ("Unrecognized command '" ++ command ++ "'")

/-- The local `commandWasBlank` of lines 46-57. -/
def commandWasBlank (p : CommandLineParser) (command : String) : Bool :=
  if command ∈ p.commandSet then false
  else if command = "" then true
  else false

/-- Lines 66-74: the command-name precedence. -/
def applyPrecedence (commandLineConfiguration : CommandLineConfiguration)
    (command : String) (wasBlank : Bool) : CommandLineConfiguration :=
  let cfg := { commandLineConfiguration with Command := command }
  if cfg.version then { cfg with Command := "version" }
  else if cfg.help || wasBlank then
    let cfg := { cfg with Command := "help" }
    if !wasBlank then { cfg with SubcommandFlags := command :: cfg.SubcommandFlags }
    else cfg
  else cfg

/-- The method `Parse` (lines 42-86). -/
def Parse (p : CommandLineParser) (arguments : List String) : ParseResult :=
  let commandFinderResult := p.FindCommand arguments
  let notFound := commandNotFoundError p commandFinderResult.Command
  let wasBlank := commandWasBlank p commandFinderResult.Command
  let flagsResult := parseGlobalFlags p
    { CommandLineConfiguration.zero with SubcommandFlags := commandFinderResult.OtherArgs }
    commandFinderResult.GlobalFlags
  if flagsResult.err.isSome ∧ notFound.isNone then
    { config := CommandLineConfiguration.zero, err := flagsResult.err,
      trace := flagsResult.trace ++ [Event.usage] }
  else
    let commandLineConfiguration :=
      applyPrecedence flagsResult.config commandFinderResult.Command wasBlank
    match notFound with
    | some err =>
      { config := CommandLineConfiguration.zero, err := some err,
        trace := flagsResult.trace ++ [Event.usage] }
    | none =>
      let r := setDefaultStateDirectory p commandLineConfiguration
      match r.err with
      | some err =>
        { config := CommandLineConfiguration.zero, err := some err,
          trace := flagsResult.trace ++ r.trace }
      | none =>
        { config := r.config, err := none, trace := flagsResult.trace ++ r.trace }

/-- Number of times the usage callback was invoked in a trace. -/
def usageCalls (trace : List Event) : Nat :=
  trace.count Event.usage

/-! ## The collaborators that are not part of the parser's own source -/

/-- Modelled from the spec: the "looks like a flag" classification of the
Command Finder (section 4.1), whose source file is missing: a token is
flag-like by the prefix convention, i.e. when it starts with a dash. -/
def looksLikeFlag (token : String) : Bool :=
  match token.data with
  | '-' :: _ => true
  | _ => false

/-- Modelled from the spec: the recognised value-taking global flag names of
the Command Finder (sections 4.1 and 6), whose source file is missing: the
state-directory flag in its double- and single-dash spellings. -/
def takesValue (token : String) : Bool :=
  decide (token = "--state-dir" ∨ token = "-state-dir")

/-- Modelled from the spec: the token walk of the Command Finder (section 4.1),
whose source file is missing.  `afterValueFlag` says that the previous token
was a value-taking global flag name, so that this token belongs to that flag. -/
def findCommandLoop (afterValueFlag : Bool) : List String → CommandFinderResult
  | [] => { GlobalFlags := [], Command := "", OtherArgs := [] }
  | token :: rest =>
    if afterValueFlag then
      let r := findCommandLoop false rest
      { r with GlobalFlags := token :: r.GlobalFlags }
    else if looksLikeFlag token then
      let r := findCommandLoop (takesValue token) rest
      { r with GlobalFlags := token :: r.GlobalFlags }
    else { GlobalFlags := [], Command := token, OtherArgs := rest }

/-- Modelled from the spec: `FindCommand` of the Command Finder (section 4.1),
whose source file is missing: the first positional token is the command
candidate, the tokens before it are the global flags, the tokens after it are
the other arguments; with no positional token the command is empty and the
global flags are the whole input. -/
def FindCommand (tokens : List String) : CommandFinderResult :=
  findCommandLoop false tokens

/-- Modelled from the spec: the boolean values the flag-set primitive of
package `flags` (missing from the sources) accepts after `=`; the primitive is
the Go flag set, which reads them with `strconv.ParseBool`. -/
def parseBool (value : String) : Option Bool :=
  if value ∈ ["1", "t", "T", "TRUE", "true", "True"] then some true
  else if value ∈ ["0", "f", "F", "FALSE", "false", "False"] then some false
  else none

/-- What one token means to the flag set. -/
inductive FlagStep where
  | stop
  | terminator
  | bad (err : GoError)
  | stateDir (value : Option String)
  | debug (value : Bool)
  | help (value : Bool)
  | version (value : Bool)
deriving DecidableEq, Repr

/-- Modelled from the spec: splitting `name=value` in the flag-set primitive of
package `flags` (missing from the sources): the first `=` after the first
character separates the name from the value. -/
def splitNameValue : List Char → List Char × Option (List Char)
  | [] => ([], none)
  | c :: cs =>
    match splitChars '=' cs with
    | [] => ([c], none)
    | [w] => (c :: w, none)
    | w :: _ => (c :: w, some (cs.drop (w.length + 1)))

/-- Modelled from the spec: a boolean global flag of the flag-set primitive of
package `flags` (missing from the sources): without a value it is set to true,
with `=value` the value must read as a boolean.  The spec fixes no error
texts for the primitive; only the failure matters to the parser. -/
def boolStep (name : String) (value : Option (List Char)) (mk : Bool → FlagStep) : FlagStep :=
  match value with
  | none => mk true
  | some v =>
    match parseBool (String.mk v) with
    | some b => mk b
    | none => FlagStep.bad ("invalid boolean value for -" ++ name ++ ": " ++ String.mk v)

/-- Modelled from the spec: the global flags recognised by the flag-set
primitive of package `flags` (missing from the sources), section 6:
`state-dir` (a string), `d`/`debug`, `h`/`help`, `v`/`version` (booleans); any
other name is an unknown flag. -/
def namedStep (body : List Char) : FlagStep :=
  let nv := splitNameValue body
  let name := String.mk nv.1
  if name = "state-dir" then FlagStep.stateDir (nv.2.map String.mk)
  else if name = "d" ∨ name = "debug" then boolStep name nv.2 FlagStep.debug
  else if name = "h" ∨ name = "help" then boolStep name nv.2 FlagStep.help
  else if name = "v" ∨ name = "version" then boolStep name nv.2 FlagStep.version
  else FlagStep.bad ("flag provided but not defined: -" ++ name)

/-- Modelled from the spec: how the flag-set primitive of package `flags`
(missing from the sources) reads one token: a token that is not dash-led (or is
a lone dash) ends the flags, `--` ends them and is dropped, one or two leading
dashes introduce a flag name, and a name starting with `-` or `=` is malformed. -/
def flagStep (token : String) : FlagStep :=
  match token.data with
  | ['-', '-'] => FlagStep.terminator
  | '-' :: '-' :: c :: body =>
    if c = '-' ∨ c = '=' then FlagStep.bad ("bad flag syntax: " ++ token)
    else namedStep (c :: body)
  | '-' :: c :: body =>
    if c = '=' then FlagStep.bad ("bad flag syntax: " ++ token)
    else namedStep (c :: body)
  | _ => FlagStep.stop

/-- Modelled from the spec: the decoding loop of the flag-set primitive of
package `flags` (missing from the sources).  `pending` says that the previous
token was the state-directory flag without `=value`, so that this token is its
value. -/
def flagsParseLoop (pending : Bool) (vars : GlobalFlagVars) : List String → FlagSetOutcome
  | [] =>
    if pending then
      { vars := vars, args := [], err := some "flag needs an argument: -state-dir" }
    else { vars := vars, args := [], err := none }
  | token :: rest =>
    if pending then flagsParseLoop false { vars with StateDir := token } rest
    else
      match flagStep token with
      | FlagStep.stop => { vars := vars, args := token :: rest, err := none }
      | FlagStep.terminator => { vars := vars, args := rest, err := none }
      | FlagStep.bad err => { vars := vars, args := rest, err := some err }
      | FlagStep.stateDir (some value) =>
        flagsParseLoop false { vars with StateDir := value } rest
      | FlagStep.stateDir none => flagsParseLoop true vars rest
      | FlagStep.debug b => flagsParseLoop false { vars with Debug := b } rest
      | FlagStep.help b => flagsParseLoop false { vars with help := b } rest
      | FlagStep.version b => flagsParseLoop false { vars with version := b } rest

/-- Modelled from the spec: `Parse` of the flag-set primitive of package
`flags` (missing from the sources) on the four global flags of section 6,
starting from the variables' default values. -/
def flagsParse (defaults : GlobalFlagVars) (arguments : List String) : FlagSetOutcome :=
  flagsParseLoop false defaults arguments

/-- A parser over the given registry, environment and working-directory
result, whose command finder and flag set are `FindCommand` and `flagsParse`. -/
def newParser (commandSet : List String) (envGetter : String → String)
    (getwd : String × Option GoError) : CommandLineParser :=
  { commandSet := commandSet, envGetter := envGetter, getwd := getwd,
    FindCommand := FindCommand, flagsParse := flagsParse }

/-- An environment in which no variable is set. -/
def emptyEnv : String → String := fun _ => ""

/-- The call of line 60: `parseGlobalFlags` on the finder's global flags, with
`SubcommandFlags` already set to the finder's other arguments (line 59). -/
def parsedFlags (p : CommandLineParser) (arguments : List String) : GlobalFlagsResult :=
  parseGlobalFlags p
    { CommandLineConfiguration.zero with
      SubcommandFlags := (p.FindCommand arguments).OtherArgs }
    (p.FindCommand arguments).GlobalFlags

/-- The message of the duplicate-flag error of line 117. -/
def duplicateStateDirError : GoError :=
  "Invalid usage: cannot specify global 'state-dir' flag more than once."

/-- The configuration handed to `setDefaultStateDirectory` at line 80. -/
def resolvedConfiguration (p : CommandLineParser) (arguments : List String) :
    CommandLineConfiguration :=
  applyPrecedence (parsedFlags p arguments).config (p.FindCommand arguments).Command
    (commandWasBlank p (p.FindCommand arguments).Command)

/-- A sample parser: `up` and `deploy` registered, no environment variable set,
working directory `/home`. -/
def sampleParser : CommandLineParser :=
  newParser ["up", "deploy"] emptyEnv ("/home", none)

/-- The sample parser in a process whose working-directory lookup fails. -/
def sampleParserNoWd : CommandLineParser :=
  newParser ["up", "deploy"] emptyEnv ("", some "getwd: no such file or directory")

/-- The name `validateGlobalFlags` reads off a token at line 114: the text
before its first `=`, the whole token when it has none. -/
def flagName (argument : String) : String :=
  (stringsSplit argument '=').headD ""

/-- The test of line 115 on a token. -/
def namesStateDir (argument : String) : Bool :=
  decide (flagName argument = "--state-dir" ∨ flagName argument = "-state-dir")

/-- An occurrence of the state-dir flag: the spelling `--state-dir` or
`-state-dir`, alone or followed by `=value`. -/
def isStateDirOccurrence (token : String) : Bool :=
  token == "--state-dir" || token == "-state-dir" ||
    "--state-dir=".data.isPrefixOf token.data || "-state-dir=".data.isPrefixOf token.data

/-- How many tokens are occurrences of the state-dir flag. -/
def stateDirOccurrences (tokens : List String) : Nat :=
  tokens.countP isStateDirOccurrence

/-- The text of a token before its first `=` character, the whole token when it
has none: the wording of the specification of `validateGlobalFlags`, read off
the token without splitting it. -/
def textBeforeFirstEq (token : String) : String :=
  String.mk (token.data.takeWhile (fun c => decide (c ≠ '=')))

/-- The specification of `validateGlobalFlags`: the duplicate-flag error when
at least two tokens have `--state-dir` or `-state-dir` as the text before
their first `=`, and no error otherwise. -/
def validateGlobalFlagsSpec (arguments : List String) : Option GoError :=
  if 2 ≤ arguments.countP
      (fun token => decide (textBeforeFirstEq token = "--state-dir" ∨
        textBeforeFirstEq token = "-state-dir")) then
    some "Invalid usage: cannot specify global 'state-dir' flag more than once."
  else none

/-! ## The ssh command (`commands/ssh.go`) -/

/-- The field `Jumpbox` of `storage.State`, as far as `SSH.Execute` reads it. -/
structure Jumpbox where
  URL : String
deriving DecidableEq, Repr

/-- The field `BOSH` of `storage.State`, as far as `SSH.Execute` reads it. -/
structure BOSH where
  DirectorAddress : String
deriving DecidableEq, Repr

/-- The part of `storage.State` that `SSH.Execute` reads. -/
structure State where
  Jumpbox : Jumpbox
  BOSH : BOSH
deriving DecidableEq, Repr

/-- The calls `SSH.Execute` makes on its collaborators: `tempDirWriter.TempDir`,
`keyGetter.Get`, `tempDirWriter.WriteFile`, `randomPort.GetPort` and `cmd.Run`,
each with its arguments. -/
inductive SSHEvent where
  | tempDir (dir pattern : String)
  | keyGet (name : String)
  | writeFile (path contents : String) (perm : Nat)
  | getPort
  | run (args : List String)
deriving DecidableEq, Repr

/-- What `sshFlags.Parse(args)` leaves behind (lines 56-59): the two bound
booleans and the error. -/
structure SSHFlagOutcome where
  jumpbox : Bool
  director : Bool
  err : Option GoError
deriving DecidableEq, Repr

/-- The structure `SSH` (lines 14-19): its four collaborators, given by the
results of their methods, together with the two library functions `Execute`
calls: the flag set of package `flags` with the boolean flags `jumpbox` and
`director` (lines 56-59) and `filepath.Join` (lines 78, 96). -/
structure SSH where
  cmdRun : List String → Option GoError
  keyGetterGet : String → String × Option GoError
  TempDir : String → String → String × Option GoError
  WriteFile : String → String → Nat → Option GoError
  GetPort : String × Option GoError
  sshFlagsParse : List String → SSHFlagOutcome
  filepathJoin : String → String → String

/-- Result of `SSH.Execute`: the returned error and the trace of collaborator
calls. -/
structure ExecuteResult where
  err : Option GoError
  trace : List SSHEvent
deriving DecidableEq, Repr

/-- Go `strings.TrimPrefix`. -/
def stringsTrimPrefix (s start : String) : String :=
  if start.data.isPrefixOf s.data then String.mk (s.data.drop start.data.length) else s

/-- The method `SSH.Execute` (lines 51-115). -/
def SSH.Execute (s : SSH) (args : List String) (state : State) : ExecuteResult :=
  let flags := s.sshFlagsParse args
  match flags.err with
  | some err => { err := some err, trace := [] }
  | none =>
    if !flags.jumpbox && !flags.director then
      { err := some "This command requires the --jumpbox or --director flag.", trace := [] }
    else
      match s.TempDir "" "" with
      | (_, some err) =>
        { err := some ("Create temp directory: " ++ err), trace := [SSHEvent.tempDir "" ""] }
      | (tempDir, none) =>
        match s.keyGetterGet "jumpbox" with
        | (_, some err) =>
          { err := some ("Get jumpbox private key: " ++ err),
            trace := [SSHEvent.tempDir "" "", SSHEvent.keyGet "jumpbox"] }
        | (jumpboxKey, none) =>
          let jumpboxKeyPath := s.filepathJoin tempDir "jumpbox-private-key"
          match s.WriteFile jumpboxKeyPath jumpboxKey 0o600 with
          | some err =>
            { err := some ("Write private key file: " ++ err),
              trace := [SSHEvent.tempDir "" "", SSHEvent.keyGet "jumpbox",
                SSHEvent.writeFile jumpboxKeyPath jumpboxKey 0o600] }
          | none =>
            let jumpboxURL := (stringsSplit state.Jumpbox.URL ':').headD ""
            let trace3 := [SSHEvent.tempDir "" "", SSHEvent.keyGet "jumpbox",
              SSHEvent.writeFile jumpboxKeyPath jumpboxKey 0o600]
            if flags.jumpbox then
              let runArgs := ["-o StrictHostKeyChecking=no -o ServerAliveInterval=300",
                "jumpbox@" ++ jumpboxURL, "-i", jumpboxKeyPath]
              { err := s.cmdRun runArgs, trace := trace3 ++ [SSHEvent.run runArgs] }
            else
              match s.keyGetterGet "director" with
              | (_, some err) =>
                { err := some ("Get director private key: " ++ err),
                  trace := trace3 ++ [SSHEvent.keyGet "director"] }
              | (directorPrivateKey, none) =>
                let directorKeyPath := s.filepathJoin tempDir "director-private-key"
                let trace5 := trace3 ++ [SSHEvent.keyGet "director",
                  SSHEvent.writeFile directorKeyPath directorPrivateKey 0o600]
                match s.WriteFile directorKeyPath directorPrivateKey 0o600 with
                | some err =>
                  { err := some ("Write private key file: " ++ err), trace := trace5 }
                | none =>
                  match s.GetPort with
                  | (_, some err) =>
                    { err := some ("Open proxy port: " ++ err),
                      trace := trace5 ++ [SSHEvent.getPort] }
                  | (port, none) =>
                    let tunnelArgs :=
                      ["-4 -D", port, "-fNC", "jumpbox@" ++ jumpboxURL, "-i", jumpboxKeyPath]
                    match s.cmdRun tunnelArgs with
                    | some err =>
                      { err := some ("Open tunnel to jumpbox: " ++ err),
                        trace := trace5 ++ [SSHEvent.getPort, SSHEvent.run tunnelArgs] }
                    | none =>
                      let ip := (stringsSplit
                        (stringsTrimPrefix state.BOSH.DirectorAddress "https://") ':').headD ""
                      let sshArgs :=
                        ["-o ProxyCommand=nc -x localhost:" ++ port ++ " %h %p", "-i",
                          directorKeyPath, "jumpbox@" ++ ip]
                      { err := s.cmdRun sshArgs,
                        trace := trace5 ++ [SSHEvent.getPort, SSHEvent.run tunnelArgs,
                          SSHEvent.run sshArgs] }

/-- How many times the ssh command was run in a trace. -/
def runCalls (trace : List SSHEvent) : Nat :=
  trace.countP (fun ev => match ev with
    | SSHEvent.run _ => true
    | _ => false)

/-- A sample set of ssh collaborators: every call succeeds, the temp dir is
`/tmp/bbl`, the keys are `KEY-jumpbox` and `KEY-director`, a flag is set when
its double-dash spelling is among the arguments, and paths are joined with a
slash. -/
def sampleSSH : SSH :=
  { cmdRun := fun _ => none,
    keyGetterGet := fun name => ("KEY-" ++ name, none),
    TempDir := fun _ _ => ("/tmp/bbl", none),
    WriteFile := fun _ _ _ => none,
    GetPort := ("61000", none),
    sshFlagsParse := fun args =>
      { jumpbox := decide ("--jumpbox" ∈ args), director := decide ("--director" ∈ args),
        err := none },
    filepathJoin := fun dir name => dir ++ "/" ++ name }

/-- A sample state: jumpbox at `10.0.0.5:22`, director at `https://10.0.0.6:25555`. -/
def sampleState : State :=
  { Jumpbox := { URL := "10.0.0.5:22" },
    BOSH := { DirectorAddress := "https://10.0.0.6:25555" } }

/-! ## Structure of a parse -/

theorem parseGlobalFlags_trace (c : CommandLineParser) (cfg : CommandLineConfiguration)
    (arguments : List String) :
    (parseGlobalFlags c cfg arguments).trace = [] ∨
      (parseGlobalFlags c cfg arguments).trace = [Event.envGet "BBL_DEBUG"] := by
  unfold parseGlobalFlags
  split
  · exact Or.inl rfl
  · dsimp only
    split <;> exact Or.inr rfl

theorem usageCalls_parseGlobalFlags (c : CommandLineParser) (cfg : CommandLineConfiguration)
    (arguments : List String) :
    usageCalls (parseGlobalFlags c cfg arguments).trace = 0 := by
  rcases parseGlobalFlags_trace c cfg arguments with h | h <;> rw [h] <;> decide

theorem getwd_not_mem_parseGlobalFlags (c : CommandLineParser)
    (cfg : CommandLineConfiguration) (arguments : List String) :
    Event.getwd ∉ (parseGlobalFlags c cfg arguments).trace := by
  rcases parseGlobalFlags_trace c cfg arguments with h | h <;> rw [h] <;> decide

theorem usageCalls_append (t u : List Event) :
    usageCalls (t ++ u) = usageCalls t + usageCalls u := by
  simp [usageCalls]

theorem commandNotFoundError_eq_none {p : CommandLineParser} {command : String}
    (h : command ∈ p.commandSet ∨ command = "") : commandNotFoundError p command = none := by
  unfold commandNotFoundError
  rcases h with h | h
  · simp [h]
  · simp [h]

theorem commandNotFoundError_eq_some {p : CommandLineParser} {command : String}
    (h1 : command ≠ "") (h2 : command ∉ p.commandSet) :
    commandNotFoundError p command = some ("Unrecognized command '" ++ command ++ "'") := by
  unfold commandNotFoundError
  simp [h1, h2]

/-- An unregistered, non-empty candidate: the parse ends at lines 75-78. -/
theorem Parse_of_notFound (p : CommandLineParser) (arguments : List String) (e : GoError)
    (h : commandNotFoundError p (p.FindCommand arguments).Command = some e) :
    Parse p arguments =
      { config := CommandLineConfiguration.zero, err := some e,
        trace := (parsedFlags p arguments).trace ++ [Event.usage] } := by
  unfold Parse parsedFlags
  simp [h]

/-- A failing flag parse with no pending error: the parse ends at lines 61-64. -/
theorem Parse_of_flagError (p : CommandLineParser) (arguments : List String) (e : GoError)
    (h : commandNotFoundError p (p.FindCommand arguments).Command = none)
    (he : (parsedFlags p arguments).err = some e) :
    Parse p arguments =
      { config := CommandLineConfiguration.zero, err := some e,
        trace := (parsedFlags p arguments).trace ++ [Event.usage] } := by
  unfold parsedFlags at he
  unfold Parse parsedFlags
  simp [h, he]

/-- No pending error and a successful flag parse: the parse reaches line 80. -/
theorem Parse_of_resolved (p : CommandLineParser) (arguments : List String)
    (h : commandNotFoundError p (p.FindCommand arguments).Command = none)
    (he : (parsedFlags p arguments).err = none) :
    Parse p arguments =
      match (setDefaultStateDirectory p (resolvedConfiguration p arguments)).err with
      | some err =>
        { config := CommandLineConfiguration.zero, err := some err,
          trace := (parsedFlags p arguments).trace ++
            (setDefaultStateDirectory p (resolvedConfiguration p arguments)).trace }
      | none =>
        { config := (setDefaultStateDirectory p (resolvedConfiguration p arguments)).config,
          err := none,
          trace := (parsedFlags p arguments).trace ++
            (setDefaultStateDirectory p (resolvedConfiguration p arguments)).trace } := by
  unfold parsedFlags at he
  unfold Parse resolvedConfiguration parsedFlags
  simp [h, he]

theorem setDefaultStateDirectory_of_stateDir (c : CommandLineParser)
    (cfg : CommandLineConfiguration) (h : cfg.StateDir ≠ "") :
    setDefaultStateDirectory c cfg = { config := cfg, err := none, trace := [] } := by
  unfold setDefaultStateDirectory
  simp [h]

theorem setDefaultStateDirectory_of_getwd (c : CommandLineParser)
    (cfg : CommandLineConfiguration) (h : cfg.StateDir = "") (hwd : c.getwd.2 = none) :
    setDefaultStateDirectory c cfg =
      { config := { cfg with StateDir := c.getwd.1 }, err := none, trace := [Event.getwd] } := by
  unfold setDefaultStateDirectory
  rcases hg : c.getwd with ⟨wd, e⟩
  rw [hg] at hwd
  simp only at hwd
  subst hwd
  simp [h]

theorem setDefaultStateDirectory_of_getwd_error (c : CommandLineParser)
    (cfg : CommandLineConfiguration) (e : GoError) (h : cfg.StateDir = "")
    (hwd : c.getwd.2 = some e) :
    setDefaultStateDirectory c cfg =
      { config := CommandLineConfiguration.zero, err := some e, trace := [Event.getwd] } := by
  unfold setDefaultStateDirectory
  rcases hg : c.getwd with ⟨wd, e'⟩
  rw [hg] at hwd
  simp only at hwd
  subst hwd
  simp [h]

/-- The three ways `setDefaultStateDirectory` can end. -/
theorem setDefaultStateDirectory_cases (c : CommandLineParser) (cfg : CommandLineConfiguration) :
    (cfg.StateDir ≠ "" ∧
        setDefaultStateDirectory c cfg = { config := cfg, err := none, trace := [] }) ∨
    (cfg.StateDir = "" ∧ c.getwd.2 = none ∧
        setDefaultStateDirectory c cfg =
          { config := { cfg with StateDir := c.getwd.1 }, err := none,
            trace := [Event.getwd] }) ∨
    (∃ e, cfg.StateDir = "" ∧ c.getwd.2 = some e ∧
        setDefaultStateDirectory c cfg =
          { config := CommandLineConfiguration.zero, err := some e,
            trace := [Event.getwd] }) := by
  by_cases h : cfg.StateDir = ""
  · rcases hwd : c.getwd.2 with _ | e
    · exact Or.inr (Or.inl ⟨h, rfl, setDefaultStateDirectory_of_getwd c cfg h hwd⟩)
    · exact Or.inr (Or.inr ⟨e, h, rfl, setDefaultStateDirectory_of_getwd_error c cfg e h hwd⟩)
  · exact Or.inl ⟨h, setDefaultStateDirectory_of_stateDir c cfg h⟩

theorem applyPrecedence_StateDir (cfg : CommandLineConfiguration) (command : String)
    (wasBlank : Bool) : (applyPrecedence cfg command wasBlank).StateDir = cfg.StateDir := by
  unfold applyPrecedence
  dsimp only
  split
  · rfl
  · split
    · split <;> rfl
    · rfl

theorem applyPrecedence_version (cfg : CommandLineConfiguration) (command : String)
    (wasBlank : Bool) (h : cfg.version = true) :
    applyPrecedence cfg command wasBlank = { cfg with Command := "version" } := by
  unfold applyPrecedence
  simp [h]

theorem applyPrecedence_help (cfg : CommandLineConfiguration) (command : String)
    (hv : cfg.version = false) (hh : cfg.help = true) :
    applyPrecedence cfg command false =
      { cfg with Command := "help", SubcommandFlags := command :: cfg.SubcommandFlags } := by
  unfold applyPrecedence
  simp [hv, hh]

theorem applyPrecedence_blank (cfg : CommandLineConfiguration) (command : String)
    (hv : cfg.version = false) :
    applyPrecedence cfg command true = { cfg with Command := "help" } := by
  unfold applyPrecedence
  simp [hv]

theorem applyPrecedence_named (cfg : CommandLineConfiguration) (command : String)
    (hv : cfg.version = false) (hh : cfg.help = false) :
    applyPrecedence cfg command false = { cfg with Command := command } := by
  unfold applyPrecedence
  simp [hv, hh]

/-- A parse that reaches line 80 with a state directory, or with a working
directory to fall back on, succeeds with the resolved command and flags. -/
theorem Parse_success (p : CommandLineParser) (arguments : List String)
    (h : commandNotFoundError p (p.FindCommand arguments).Command = none)
    (he : (parsedFlags p arguments).err = none)
    (hwd : (parsedFlags p arguments).config.StateDir ≠ "" ∨ p.getwd.2 = none) :
    (Parse p arguments).err = none ∧
      (Parse p arguments).config.Command = (resolvedConfiguration p arguments).Command ∧
      (Parse p arguments).config.SubcommandFlags =
        (resolvedConfiguration p arguments).SubcommandFlags := by
  rw [Parse_of_resolved p arguments h he]
  have hsd : (resolvedConfiguration p arguments).StateDir =
      (parsedFlags p arguments).config.StateDir := applyPrecedence_StateDir _ _ _
  rcases setDefaultStateDirectory_cases p (resolvedConfiguration p arguments) with
    ⟨_, h2⟩ | ⟨_, _, h2⟩ | ⟨e, h1, h3, _⟩
  · rw [h2]; exact ⟨rfl, rfl, rfl⟩
  · rw [h2]; exact ⟨rfl, rfl, rfl⟩
  · rcases hwd with hwd | hwd
    · exact absurd (hsd ▸ h1) hwd
    · rw [hwd] at h3; cases h3

/-- A parse without error went through lines 60-85 without taking an error
return, and its configuration is the resolved one up to the state directory. -/
theorem Parse_err_none (p : CommandLineParser) (arguments : List String)
    (h : (Parse p arguments).err = none) :
    commandNotFoundError p (p.FindCommand arguments).Command = none ∧
      (parsedFlags p arguments).err = none ∧
      (Parse p arguments).config.Command = (resolvedConfiguration p arguments).Command ∧
      (Parse p arguments).config.SubcommandFlags =
        (resolvedConfiguration p arguments).SubcommandFlags ∧
      usageCalls (Parse p arguments).trace = 0 := by
  rcases hnf : commandNotFoundError p (p.FindCommand arguments).Command with _ | e
  · rcases hfe : (parsedFlags p arguments).err with _ | e
    · rw [Parse_of_resolved p arguments hnf hfe] at h ⊢
      have hu := usageCalls_parseGlobalFlags p
        { CommandLineConfiguration.zero with
          SubcommandFlags := (p.FindCommand arguments).OtherArgs }
        (p.FindCommand arguments).GlobalFlags
      rcases setDefaultStateDirectory_cases p (resolvedConfiguration p arguments) with
        ⟨_, h2⟩ | ⟨_, _, h2⟩ | ⟨e, _, _, h2⟩
      · rw [h2]
        refine ⟨rfl, rfl, rfl, rfl, ?_⟩
        simp only [usageCalls_append, parsedFlags, hu]
        decide
      · rw [h2]
        refine ⟨rfl, rfl, rfl, rfl, ?_⟩
        simp only [usageCalls_append, parsedFlags, hu]
        decide
      · rw [h2] at h
        cases h
    · rw [Parse_of_flagError p arguments e hnf hfe] at h
      cases h
  · rw [Parse_of_notFound p arguments e hnf] at h
    cases h

theorem applyPrecedence_Command (cfg : CommandLineConfiguration) (command : String)
    (wasBlank : Bool) :
    (applyPrecedence cfg command wasBlank).Command =
      if cfg.version then "version" else if cfg.help || wasBlank then "help" else command := by
  unfold applyPrecedence
  dsimp only
  split
  · rfl
  · split
    · split <;> rfl
    · rfl

theorem commandWasBlank_eq_false_of_mem {p : CommandLineParser} {command : String}
    (h : command ∈ p.commandSet) : commandWasBlank p command = false := by
  unfold commandWasBlank
  simp [h]

theorem commandWasBlank_eq_true {p : CommandLineParser} {command : String}
    (h1 : command = "") (h2 : "" ∉ p.commandSet) : commandWasBlank p command = true := by
  unfold commandWasBlank
  subst h1
  simp [h2]

/-- With no pending error, a candidate that was not blank is registered. -/
theorem mem_of_not_blank {p : CommandLineParser} {command : String}
    (h : commandNotFoundError p command = none) (hb : commandWasBlank p command = false) :
    command ∈ p.commandSet := by
  unfold commandNotFoundError at h
  unfold commandWasBlank at hb
  by_cases hm : command ∈ p.commandSet
  · exact hm
  · by_cases h0 : command = ""
    · rw [if_neg hm, if_pos h0] at hb
      cases hb
    · rw [if_neg hm, if_neg h0] at h
      cases h

theorem usageCalls_parse_error_trace (p : CommandLineParser) (arguments : List String) :
    usageCalls ((parsedFlags p arguments).trace ++ [Event.usage]) = 1 := by
  rw [usageCalls_append, parsedFlags, usageCalls_parseGlobalFlags]
  decide

/-- A successful flag parse leaves `SubcommandFlags` as set at line 59. -/
theorem parsedFlags_SubcommandFlags (p : CommandLineParser) (arguments : List String)
    (hok : (parsedFlags p arguments).err = none) :
    (parsedFlags p arguments).config.SubcommandFlags = (p.FindCommand arguments).OtherArgs := by
  unfold parsedFlags at hok ⊢
  unfold parseGlobalFlags at hok ⊢
  split
  · rfl
  · dsimp only
    split
    · rename_i he
      simp [*] at hok
    · rfl

/-! ## `validateGlobalFlags` -/

theorem splitChars_ne_nil (sep : Char) (l : List Char) : splitChars sep l ≠ [] := by
  induction l with
  | nil => simp [splitChars]
  | cons c cs ih =>
    unfold splitChars
    split
    · simp
    · split <;> simp

theorem splitChars_headD (sep : Char) (l : List Char) :
    (splitChars sep l).headD [] = l.takeWhile (fun c => decide (c ≠ sep)) := by
  induction l with
  | nil => simp [splitChars]
  | cons c cs ih =>
    unfold splitChars
    by_cases h : c = sep
    · simp [h]
    · rw [if_neg h]
      rw [List.takeWhile_cons]
      simp only [ne_eq, h, not_false_eq_true, decide_True, if_true]
      rcases hs : splitChars sep cs with _ | ⟨w, ws⟩
      · exact absurd hs (splitChars_ne_nil sep cs)
      · rw [hs] at ih
        simp only [List.headD_cons] at ih ⊢
        rw [ih]

theorem stringsSplit_headD (s : String) (sep : Char) :
    (stringsSplit s sep).headD "" = String.mk (s.data.takeWhile (fun c => decide (c ≠ sep))) := by
  unfold stringsSplit
  rw [← splitChars_headD]
  rcases hs : splitChars sep s.data with _ | ⟨w, ws⟩
  · rfl
  · rfl

theorem takeWhile_ne_eq_iff (sep : Char) (n : List Char) (hn : sep ∉ n) (l : List Char) :
    l.takeWhile (fun c => decide (c ≠ sep)) = n ↔ l = n ∨ (n ++ [sep]) <+: l := by
  induction n generalizing l with
  | nil =>
    cases l with
    | nil => simp
    | cons c cs =>
      by_cases h : c = sep
      · subst h
        simp [List.takeWhile_cons]
      · have h' : ¬ sep = c := fun e => h e.symm
        simp [List.takeWhile_cons, h, h', List.cons_prefix_cons]
  | cons a n ih =>
    have ha : ¬ a = sep := fun e => hn (by simp [e])
    have hn' : sep ∉ n := fun e => hn (by simp [e])
    cases l with
    | nil => simp
    | cons c cs =>
      by_cases h : c = sep
      · subst h
        have h' : ¬ c = a := fun e => ha e.symm
        simp [List.takeWhile_cons, h', ha, List.cons_prefix_cons]
      · simp only [List.takeWhile_cons, ne_eq, h, not_false_eq_true, decide_True, if_true,
          List.cons.injEq, List.cons_append, List.cons_prefix_cons]
        rw [ih hn' cs]
        constructor
        · rintro ⟨rfl, h1 | h1⟩
          · exact Or.inl ⟨rfl, h1⟩
          · exact Or.inr ⟨rfl, h1⟩
        · rintro (⟨rfl, h1⟩ | ⟨rfl, h1⟩)
          · exact ⟨rfl, Or.inl h1⟩
          · exact ⟨rfl, Or.inr h1⟩

theorem flagName_eq_iff (argument name : String) (hn : '=' ∉ name.data) :
    flagName argument = name ↔
      argument = name ∨ (name.data ++ ['=']) <+: argument.data := by
  unfold flagName
  rw [stringsSplit_headD, String.ext_iff, String.ext_iff]
  exact takeWhile_ne_eq_iff '=' name.data hn argument.data

theorem isStateDirOccurrence_eq (token : String) :
    isStateDirOccurrence token = namesStateDir token := by
  unfold isStateDirOccurrence namesStateDir
  rw [Bool.eq_iff_iff]
  simp only [Bool.or_eq_true, beq_iff_eq, List.isPrefixOf_iff_prefix, decide_eq_true_eq]
  rw [flagName_eq_iff token "--state-dir" (by decide),
    flagName_eq_iff token "-state-dir" (by decide)]
  constructor
  · rintro (((h | h) | h) | h)
    · exact Or.inl (Or.inl h)
    · exact Or.inr (Or.inl h)
    · exact Or.inl (Or.inr h)
    · exact Or.inr (Or.inr h)
  · rintro ((h | h) | (h | h))
    · exact Or.inl (Or.inl (Or.inl h))
    · exact Or.inl (Or.inr h)
    · exact Or.inl (Or.inl (Or.inr h))
    · exact Or.inr h

/-- The loop returns the duplicate-flag error exactly when, counting a flag
already seen, it meets a second token that names the state directory. -/
theorem validateGlobalFlagsLoop_eq (hasStateDir : Bool) (arguments : List String) :
    validateGlobalFlagsLoop hasStateDir arguments =
      if 2 ≤ hasStateDir.toNat + arguments.countP namesStateDir then
        some duplicateStateDirError
      else none := by
  induction arguments generalizing hasStateDir with
  | nil =>
    cases hasStateDir <;> rfl
  | cons argument rest ih =>
    unfold validateGlobalFlagsLoop
    by_cases hname : namesStateDir argument = true
    · have hname' := hname
      unfold namesStateDir flagName at hname'
      rw [decide_eq_true_eq] at hname'
      simp only [hname', if_true]
      rw [List.countP_cons_of_pos _ _ hname]
      cases hasStateDir
      · rw [ih true]
        simp only [Bool.false_eq_true, if_false, Bool.toNat_true, Bool.toNat_false]
        congr 1
        rw [eq_iff_iff]
        omega
      · simp only [if_true, Bool.toNat_true]
        rw [if_pos (by omega)]
        rfl
    · have hname' := hname
      unfold namesStateDir flagName at hname'
      rw [decide_eq_true_eq] at hname'
      simp only [hname', if_false]
      rw [List.countP_cons_of_neg _ _ hname]
      exact ih hasStateDir

theorem validateGlobalFlags_eq (arguments : List String) :
    validateGlobalFlags arguments =
      if 2 ≤ stateDirOccurrences arguments then some duplicateStateDirError else none := by
  unfold validateGlobalFlags stateDirOccurrences
  rw [validateGlobalFlagsLoop_eq]
  have : isStateDirOccurrence = namesStateDir := funext isStateDirOccurrence_eq
  rw [this]
  simp

/-- When validation fails, `parseGlobalFlags` returns its error (lines 89-91). -/
theorem parsedFlags_of_duplicate (p : CommandLineParser) (arguments : List String)
    (h : 2 ≤ stateDirOccurrences (p.FindCommand arguments).GlobalFlags) :
    (parsedFlags p arguments).err = some duplicateStateDirError := by
  unfold parsedFlags parseGlobalFlags
  rw [validateGlobalFlags_eq, if_pos h]

theorem getwd_not_mem_parse_error_trace (p : CommandLineParser) (arguments : List String) :
    Event.getwd ∉ (parsedFlags p arguments).trace ++ [Event.usage] := by
  intro h
  rcases List.mem_append.mp h with h | h
  · exact getwd_not_mem_parseGlobalFlags p _ _ h
  · simp at h

/-- Every parse that returns an error ends in one of two ways: at one of the
two usage-printing returns (lines 61-64 and 75-78), with the usage callback
invoked once and the working directory not consulted; or at line 82, with the
error of the working-directory lookup and the usage callback not invoked. -/
theorem Parse_error_cases (p : CommandLineParser) (arguments : List String) (e : GoError)
    (h : (Parse p arguments).err = some e) :
    (Parse p arguments).config = CommandLineConfiguration.zero ∧
      ((usageCalls (Parse p arguments).trace = 1 ∧ Event.getwd ∉ (Parse p arguments).trace) ∨
        (usageCalls (Parse p arguments).trace = 0 ∧ Event.getwd ∈ (Parse p arguments).trace ∧
          p.getwd.2 = some e)) := by
  rcases hnf : commandNotFoundError p (p.FindCommand arguments).Command with _ | e1
  · rcases hfe : (parsedFlags p arguments).err with _ | e2
    · rw [Parse_of_resolved p arguments hnf hfe] at h ⊢
      have hu := usageCalls_parseGlobalFlags p
        { CommandLineConfiguration.zero with
          SubcommandFlags := (p.FindCommand arguments).OtherArgs }
        (p.FindCommand arguments).GlobalFlags
      rcases setDefaultStateDirectory_cases p (resolvedConfiguration p arguments) with
        ⟨_, h2⟩ | ⟨_, _, h2⟩ | ⟨e3, _, h3, h2⟩
      · rw [h2] at h
        cases h
      · rw [h2] at h
        cases h
      · rw [h2] at h ⊢
        simp only [Option.some.injEq] at h
        subst h
        refine ⟨rfl, Or.inr ⟨?_, ?_, h3⟩⟩
        · simp only [usageCalls_append, parsedFlags, hu]
          decide
        · simp
    · rw [Parse_of_flagError p arguments e2 hnf hfe]
      exact ⟨rfl, Or.inl ⟨usageCalls_parse_error_trace p arguments,
        getwd_not_mem_parse_error_trace p arguments⟩⟩
  · rw [Parse_of_notFound p arguments e1 hnf]
    exact ⟨rfl, Or.inl ⟨usageCalls_parse_error_trace p arguments,
      getwd_not_mem_parse_error_trace p arguments⟩⟩

/-- A parse that reaches line 80 with no state directory and a failing
working-directory lookup ends at line 82. -/
theorem Parse_of_getwd_error (p : CommandLineParser) (arguments : List String) (e : GoError)
    (h : commandNotFoundError p (p.FindCommand arguments).Command = none)
    (he : (parsedFlags p arguments).err = none)
    (hsd : (parsedFlags p arguments).config.StateDir = "")
    (hwd : p.getwd.2 = some e) :
    Parse p arguments =
      { config := CommandLineConfiguration.zero, err := some e,
        trace := (parsedFlags p arguments).trace ++ [Event.getwd] } := by
  have hsd' : (resolvedConfiguration p arguments).StateDir = "" := by
    rw [resolvedConfiguration, applyPrecedence_StateDir]
    exact hsd
  rw [Parse_of_resolved p arguments h he,
    setDefaultStateDirectory_of_getwd_error p _ e hsd' hwd]

/-- A parse that reaches line 80 with a state directory returns it and does
not consult the working directory. -/
theorem Parse_of_stateDir (p : CommandLineParser) (arguments : List String)
    (h : commandNotFoundError p (p.FindCommand arguments).Command = none)
    (he : (parsedFlags p arguments).err = none)
    (hsd : (parsedFlags p arguments).config.StateDir ≠ "") :
    Parse p arguments =
      { config := resolvedConfiguration p arguments, err := none,
        trace := (parsedFlags p arguments).trace ++ [] } := by
  have hsd' : (resolvedConfiguration p arguments).StateDir ≠ "" := by
    rw [resolvedConfiguration, applyPrecedence_StateDir]
    exact hsd
  rw [Parse_of_resolved p arguments h he,
    setDefaultStateDirectory_of_stateDir p _ hsd']

/-- A parse that reaches line 80 with no state directory and a working
directory takes the working directory as state directory. -/
theorem Parse_of_getwd (p : CommandLineParser) (arguments : List String)
    (h : commandNotFoundError p (p.FindCommand arguments).Command = none)
    (he : (parsedFlags p arguments).err = none)
    (hsd : (parsedFlags p arguments).config.StateDir = "")
    (hwd : p.getwd.2 = none) :
    Parse p arguments =
      { config := { resolvedConfiguration p arguments with StateDir := p.getwd.1 },
        err := none,
        trace := (parsedFlags p arguments).trace ++ [Event.getwd] } := by
  have hsd' : (resolvedConfiguration p arguments).StateDir = "" := by
    rw [resolvedConfiguration, applyPrecedence_StateDir]
    exact hsd
  rw [Parse_of_resolved p arguments h he,
    setDefaultStateDirectory_of_getwd p _ hsd' hwd]

theorem usageCalls_parsedFlags (p : CommandLineParser) (arguments : List String) :
    usageCalls (parsedFlags p arguments).trace = 0 :=
  usageCalls_parseGlobalFlags p _ _

theorem flagName_eq_textBeforeFirstEq (argument : String) :
    flagName argument = textBeforeFirstEq argument := by
  unfold flagName textBeforeFirstEq
  exact stringsSplit_headD argument '='

/-- Element 0 of the split exists and is the text before the first separator. -/
theorem stringsSplit_zero (s : String) (sep : Char) :
    (stringsSplit s sep)[0]? =
      some (String.mk (s.data.takeWhile (fun c => decide (c ≠ sep)))) := by
  unfold stringsSplit
  rw [← splitChars_headD]
  rcases hs : splitChars sep s.data with _ | ⟨w, ws⟩
  · exact absurd hs (splitChars_ne_nil sep s.data)
  · simp

theorem validateGlobalFlags_eq_spec (arguments : List String) :
    validateGlobalFlags arguments = validateGlobalFlagsSpec arguments := by
  unfold validateGlobalFlags validateGlobalFlagsSpec
  rw [validateGlobalFlagsLoop_eq]
  have : namesStateDir = fun token => decide (textBeforeFirstEq token = "--state-dir" ∨
      textBeforeFirstEq token = "-state-dir") := by
    funext token
    unfold namesStateDir
    rw [flagName_eq_textBeforeFirstEq]
  rw [this]
  simp only [Bool.toNat_false, Nat.zero_add]
  rfl

/-- After a successful flag parse the configuration carries the state directory
and the debug value that the flag set decoded, starting from the defaults of
lines 97-101. -/
theorem parsedFlags_ok (p : CommandLineParser) (arguments : List String)
    (hok : (parsedFlags p arguments).err = none) :
    (parsedFlags p arguments).config.StateDir =
        (p.flagsParse
          { StateDir := "", Debug := decide (p.envGetter "BBL_DEBUG" = "true"),
            help := false, version := false }
          (p.FindCommand arguments).GlobalFlags).vars.StateDir ∧
      (parsedFlags p arguments).config.Debug =
        (p.flagsParse
          { StateDir := "", Debug := decide (p.envGetter "BBL_DEBUG" = "true"),
            help := false, version := false }
          (p.FindCommand arguments).GlobalFlags).vars.Debug := by
  unfold parsedFlags at hok ⊢
  unfold parseGlobalFlags at hok ⊢
  split
  · rename_i e he
    rw [he] at hok
    cases hok
  · dsimp only
    dsimp only at hok
    split
    · rename_i e he _
      simp [*] at hok
    · exact ⟨rfl, rfl⟩

theorem applyPrecedence_Debug (cfg : CommandLineConfiguration) (command : String)
    (wasBlank : Bool) : (applyPrecedence cfg command wasBlank).Debug = cfg.Debug := by
  unfold applyPrecedence
  dsimp only
  split
  · rfl
  · split
    · split <;> rfl
    · rfl

theorem Parse_err_none_Debug_StateDir (p : CommandLineParser) (arguments : List String)
    (h : (Parse p arguments).err = none) :
    (Parse p arguments).config.Debug = (parsedFlags p arguments).config.Debug ∧
      (Parse p arguments).config.StateDir =
        (if (parsedFlags p arguments).config.StateDir = "" then p.getwd.1
          else (parsedFlags p arguments).config.StateDir) := by
  obtain ⟨hnf, hfe, _⟩ := Parse_err_none p arguments h
  have hsd : (resolvedConfiguration p arguments).StateDir =
      (parsedFlags p arguments).config.StateDir := applyPrecedence_StateDir _ _ _
  have hdb : (resolvedConfiguration p arguments).Debug =
      (parsedFlags p arguments).config.Debug := applyPrecedence_Debug _ _ _
  rw [Parse_of_resolved p arguments hnf hfe] at h ⊢
  rcases setDefaultStateDirectory_cases p (resolvedConfiguration p arguments) with
    ⟨h1, h2⟩ | ⟨h1, _, h2⟩ | ⟨e, _, _, h2⟩
  · rw [h2]
    rw [hsd] at h1
    exact ⟨hdb, by rw [if_neg h1]; exact hsd⟩
  · rw [h2]
    rw [hsd] at h1
    exact ⟨hdb, by rw [if_pos h1]⟩
  · rw [h2] at h
    cases h

theorem flagsParseLoop_Debug (tokens : List String) (pending : Bool) (vars : GlobalFlagVars)
    (h : ∀ t ∈ tokens, ∀ b, flagStep t ≠ FlagStep.debug b) :
    (flagsParseLoop pending vars tokens).vars.Debug = vars.Debug := by
  induction tokens generalizing pending vars with
  | nil =>
    unfold flagsParseLoop
    split <;> rfl
  | cons token rest ih =>
    have hrest : ∀ t ∈ rest, ∀ b, flagStep t ≠ FlagStep.debug b :=
      fun t ht => h t (List.mem_cons_of_mem _ ht)
    have htoken := h token (List.mem_cons_self _ _)
    unfold flagsParseLoop
    cases pending
    · simp only [Bool.false_eq_true, if_false]
      split
      · rfl
      · rfl
      · rfl
      · rw [ih _ _ hrest]
      · rw [ih _ _ hrest]
      · rename_i b hb
        exact absurd hb (htoken b)
      · rw [ih _ _ hrest]
      · rw [ih _ _ hrest]
    · simp only [if_true]
      rw [ih _ _ hrest]

theorem flagsParseLoop_StateDir (tokens : List String) (vars : GlobalFlagVars)
    (h : ∀ t ∈ tokens, ∀ v, flagStep t ≠ FlagStep.stateDir v) :
    (flagsParseLoop false vars tokens).vars.StateDir = vars.StateDir := by
  induction tokens generalizing vars with
  | nil => rfl
  | cons token rest ih =>
    have hrest : ∀ t ∈ rest, ∀ v, flagStep t ≠ FlagStep.stateDir v :=
      fun t ht => h t (List.mem_cons_of_mem _ ht)
    have htoken := h token (List.mem_cons_self _ _)
    unfold flagsParseLoop
    simp only [Bool.false_eq_true, if_false]
    split
    · rfl
    · rfl
    · rfl
    · rename_i v hv
      exact absurd hv (htoken (some v))
    · rename_i hv
      exact absurd hv (htoken none)
    · rw [ih _ hrest]
    · rw [ih _ hrest]
    · rw [ih _ hrest]

theorem FindCommand_stateDir_value (d cmd : String) (rest : List String)
    (hcmd : looksLikeFlag cmd = false) :
    FindCommand ("--state-dir" :: d :: cmd :: rest) =
      { GlobalFlags := ["--state-dir", d], Command := cmd, OtherArgs := rest } := by
  have h1 : looksLikeFlag "--state-dir" = true := by decide
  have h2 : takesValue "--state-dir" = true := by decide
  simp [FindCommand, findCommandLoop, h1, h2, hcmd]

theorem flagsParse_stateDir_value (vars : GlobalFlagVars) (d : String) :
    flagsParse vars ["--state-dir", d] =
      { vars := { vars with StateDir := d }, args := [], err := none } := by
  have h1 : flagStep "--state-dir" = FlagStep.stateDir none := by decide
  simp [flagsParse, flagsParseLoop, h1]

theorem validateGlobalFlags_stateDir_value (d : String) (hd : namesStateDir d = false) :
    validateGlobalFlags ["--state-dir", d] = none := by
  unfold validateGlobalFlags
  rw [validateGlobalFlagsLoop_eq]
  have h1 : namesStateDir "--state-dir" = true := by decide
  simp [List.countP_cons, h1, hd]

/-- The flag parse of `--state-dir d cmd ...` by the modelled finder and flag
set: no error, and the state directory is `d`. -/
theorem parsedFlags_stateDir_value (commandSet : List String) (envGetter : String → String)
    (wd : String × Option GoError) (d cmd : String) (rest : List String)
    (hcmd : looksLikeFlag cmd = false) (hd : namesStateDir d = false) :
    (parsedFlags (newParser commandSet envGetter wd) ("--state-dir" :: d :: cmd :: rest)).err
        = none ∧
      (parsedFlags (newParser commandSet envGetter wd)
        ("--state-dir" :: d :: cmd :: rest)).config.StateDir = d := by
  unfold parsedFlags parseGlobalFlags
  simp only [newParser, FindCommand_stateDir_value d cmd rest hcmd,
    validateGlobalFlags_stateDir_value d hd, flagsParse_stateDir_value]
  exact ⟨trivial, trivial⟩

/-! ## C1 -/

/-- C1 (counterexample): with the empty name among the registered commands and
an empty argument list, `Parse` returns no error and an empty `Command`. -/
theorem C1_counterexample :
    (Parse (newParser [""] emptyEnv ("/home", none)) []).err = none ∧
      (Parse (newParser [""] emptyEnv ("/home", none)) []).config.Command = "" := by
  decide

/-- C1 (amended): whenever `Parse` returns no error, the returned `Command` is a
name present in the registry, or `"help"`, or `"version"`; and it is not the
empty string whenever the empty string is not a registered name. -/
theorem C1_Parse_command_resolved (p : CommandLineParser) (arguments : List String)
    (h : (Parse p arguments).err = none) :
    ((Parse p arguments).config.Command ∈ p.commandSet ∨
        (Parse p arguments).config.Command = "help" ∨
        (Parse p arguments).config.Command = "version") ∧
      ("" ∉ p.commandSet → (Parse p arguments).config.Command ≠ "") := by
  obtain ⟨hnf, _, hc, _, _⟩ := Parse_err_none p arguments h
  have key : (Parse p arguments).config.Command ∈ p.commandSet ∨
      (Parse p arguments).config.Command = "help" ∨
      (Parse p arguments).config.Command = "version" := by
    rw [hc, resolvedConfiguration, applyPrecedence_Command]
    split
    · exact Or.inr (Or.inr rfl)
    · split
      · exact Or.inr (Or.inl rfl)
      · rename_i hhb
        refine Or.inl (mem_of_not_blank hnf ?_)
        simp only [Bool.or_eq_true, not_or, Bool.not_eq_true] at hhb
        exact hhb.2
  refine ⟨key, fun hreg hempty => ?_⟩
  rcases key with hk | hk | hk
  · rw [hempty] at hk
    exact hreg hk
  · rw [hempty] at hk
    exact absurd hk (by decide)
  · rw [hempty] at hk
    exact absurd hk (by decide)

/-- C1 (witness): `deploy --name foo` with `deploy` registered. -/
theorem C1_Parse_command_resolved_witness :
    (Parse (newParser ["up", "deploy"] emptyEnv ("/home", none))
        ["deploy", "--name", "foo"]).err = none ∧
      (((Parse (newParser ["up", "deploy"] emptyEnv ("/home", none))
          ["deploy", "--name", "foo"]).config.Command ∈
            (newParser ["up", "deploy"] emptyEnv ("/home", none)).commandSet ∨
        (Parse (newParser ["up", "deploy"] emptyEnv ("/home", none))
          ["deploy", "--name", "foo"]).config.Command = "help" ∨
        (Parse (newParser ["up", "deploy"] emptyEnv ("/home", none))
          ["deploy", "--name", "foo"]).config.Command = "version") ∧
      ("" ∉ (newParser ["up", "deploy"] emptyEnv ("/home", none)).commandSet →
        (Parse (newParser ["up", "deploy"] emptyEnv ("/home", none))
          ["deploy", "--name", "foo"]).config.Command ≠ "")) :=
  ⟨by decide,
    C1_Parse_command_resolved (newParser ["up", "deploy"] emptyEnv ("/home", none))
      ["deploy", "--name", "foo"] (by decide)⟩

/-! ## C2 -/

/-- C2 (counterexample): for `--help badcmd`, with `badcmd` not registered, the
global flags decode with help set, and `Parse` returns the
unrecognized-command error instead of resolving to help. -/
theorem C2_counterexample :
    (sampleParser.FindCommand ["--help", "badcmd"]).Command = "badcmd" ∧
      "badcmd" ∉ sampleParser.commandSet ∧
      (parsedFlags sampleParser ["--help", "badcmd"]).err = none ∧
      (parsedFlags sampleParser ["--help", "badcmd"]).config.help = true ∧
      (Parse sampleParser ["--help", "badcmd"]).err = some "Unrecognized command 'badcmd'" ∧
      (Parse sampleParser ["--help", "badcmd"]).config.Command ≠ "help" := by
  decide

/-- C2 (amended): for every argument list whose command candidate is non-empty
and not in the registry, and whose global flags decode successfully with the
help flag set, `Parse` returns the unrecognized-command error naming the
candidate, with a zero-value configuration and one call of the usage callback;
it does not resolve to help. -/
theorem C2_unrecognized_command_beats_help (p : CommandLineParser) (arguments : List String)
    (hne : (p.FindCommand arguments).Command ≠ "")
    (hnr : (p.FindCommand arguments).Command ∉ p.commandSet)
    (_hok : (parsedFlags p arguments).err = none)
    (_hhelp : (parsedFlags p arguments).config.help = true) :
    (Parse p arguments).err =
        some ("Unrecognized command '" ++ (p.FindCommand arguments).Command ++ "'") ∧
      (Parse p arguments).config = CommandLineConfiguration.zero ∧
      (Parse p arguments).config.Command ≠ "help" ∧
      usageCalls (Parse p arguments).trace = 1 := by
  rw [Parse_of_notFound p arguments _ (commandNotFoundError_eq_some hne hnr)]
  refine ⟨rfl, rfl, ?_, usageCalls_parse_error_trace p arguments⟩
  show ("" : String) ≠ "help"
  decide

/-- C2 (witness): `--help badcmd` on the sample parser. -/
theorem C2_unrecognized_command_beats_help_witness :
    (Parse sampleParser ["--help", "badcmd"]).err =
        some ("Unrecognized command '" ++
          (sampleParser.FindCommand ["--help", "badcmd"]).Command ++ "'") ∧
      (Parse sampleParser ["--help", "badcmd"]).config = CommandLineConfiguration.zero ∧
      (Parse sampleParser ["--help", "badcmd"]).config.Command ≠ "help" ∧
      usageCalls (Parse sampleParser ["--help", "badcmd"]).trace = 1 :=
  C2_unrecognized_command_beats_help sampleParser ["--help", "badcmd"]
    (by decide) (by decide) (by decide) (by decide)

/-! ## C3 -/

/-- C3 (counterexample): with `-v` in the global-flag region, `Parse` still
returns an error when the command candidate is not registered (`-v badcmd`),
when another global flag is unknown (`-v --bogus up`), and when no state
directory is given and the working-directory lookup fails (`-v up`); and where
the token `-v` is the value of the state-dir flag (`--state-dir -v up`) the
version flag is not set and `Parse` resolves to the command. -/
theorem C3_counterexample :
    ("-v" ∈ (sampleParser.FindCommand ["-v", "badcmd"]).GlobalFlags ∧
        (Parse sampleParser ["-v", "badcmd"]).err = some "Unrecognized command 'badcmd'") ∧
      ("-v" ∈ (sampleParser.FindCommand ["-v", "--bogus", "up"]).GlobalFlags ∧
        (Parse sampleParser ["-v", "--bogus", "up"]).err =
          some "flag provided but not defined: -bogus") ∧
      ("-v" ∈ (sampleParserNoWd.FindCommand ["-v", "up"]).GlobalFlags ∧
        (Parse sampleParserNoWd ["-v", "up"]).err =
          some "getwd: no such file or directory") ∧
      ("-v" ∈ (sampleParser.FindCommand ["--state-dir", "-v", "up"]).GlobalFlags ∧
        (Parse sampleParser ["--state-dir", "-v", "up"]).err = none ∧
        (Parse sampleParser ["--state-dir", "-v", "up"]).config.Command = "up" ∧
        (Parse sampleParser ["--state-dir", "-v", "up"]).config.StateDir = "-v") := by
  decide

/-- C3 (amended): for every argument list whose command candidate is in the
registry or blank, whose global flags decode successfully with the version flag
set, and for which a state directory is given or the working-directory lookup
succeeds, `Parse` returns no error and `Command = "version"`, whatever the
other flags and whatever the candidate. -/
theorem C3_version_resolves (p : CommandLineParser) (arguments : List String)
    (hcmd : (p.FindCommand arguments).Command ∈ p.commandSet ∨
      (p.FindCommand arguments).Command = "")
    (hok : (parsedFlags p arguments).err = none)
    (hversion : (parsedFlags p arguments).config.version = true)
    (hwd : (parsedFlags p arguments).config.StateDir ≠ "" ∨ p.getwd.2 = none) :
    (Parse p arguments).err = none ∧ (Parse p arguments).config.Command = "version" := by
  obtain ⟨h1, h2, _⟩ := Parse_success p arguments (commandNotFoundError_eq_none hcmd) hok hwd
  refine ⟨h1, ?_⟩
  rw [h2, resolvedConfiguration, applyPrecedence_version _ _ _ hversion]

/-- C3 (witness): `-v up extra` on the sample parser. -/
theorem C3_version_resolves_witness :
    (Parse sampleParser ["-v", "up", "extra"]).err = none ∧
      (Parse sampleParser ["-v", "up", "extra"]).config.Command = "version" :=
  C3_version_resolves sampleParser ["-v", "up", "extra"]
    (by decide) (by decide) (by decide) (by decide)

/-! ## C4 -/

/-- C4 (counterexample): for `--help up`, with `up` registered and help set but
not version, `Parse` returns an error when the working-directory lookup fails. -/
theorem C4_counterexample :
    (sampleParserNoWd.FindCommand ["--help", "up"]).Command ∈ sampleParserNoWd.commandSet ∧
      (parsedFlags sampleParserNoWd ["--help", "up"]).err = none ∧
      (parsedFlags sampleParserNoWd ["--help", "up"]).config.help = true ∧
      (parsedFlags sampleParserNoWd ["--help", "up"]).config.version = false ∧
      (Parse sampleParserNoWd ["--help", "up"]).err =
        some "getwd: no such file or directory" ∧
      (Parse sampleParserNoWd ["--help", "up"]).config.Command ≠ "help" := by
  decide

/-- C4 (amended): for every argument list whose command candidate X is in the
registry, whose global flags decode successfully with help set and version not
set, and for which a state directory is given or the working-directory lookup
succeeds, `Parse` returns no error with `Command = "help"` and
`SubcommandFlags` equal to X followed by the finder's `OtherArgs` in their
original order. -/
theorem C4_help_with_command (p : CommandLineParser) (arguments : List String)
    (hcmd : (p.FindCommand arguments).Command ∈ p.commandSet)
    (hok : (parsedFlags p arguments).err = none)
    (hhelp : (parsedFlags p arguments).config.help = true)
    (hversion : (parsedFlags p arguments).config.version = false)
    (hwd : (parsedFlags p arguments).config.StateDir ≠ "" ∨ p.getwd.2 = none) :
    (Parse p arguments).err = none ∧
      (Parse p arguments).config.Command = "help" ∧
      (Parse p arguments).config.SubcommandFlags =
        (p.FindCommand arguments).Command :: (p.FindCommand arguments).OtherArgs := by
  obtain ⟨h1, h2, h3⟩ :=
    Parse_success p arguments (commandNotFoundError_eq_none (Or.inl hcmd)) hok hwd
  have hsub := parsedFlags_SubcommandFlags p arguments hok
  refine ⟨h1, ?_, ?_⟩
  · rw [h2, resolvedConfiguration, commandWasBlank_eq_false_of_mem hcmd,
      applyPrecedence_help _ _ hversion hhelp]
  · rw [h3, resolvedConfiguration, commandWasBlank_eq_false_of_mem hcmd,
      applyPrecedence_help _ _ hversion hhelp, hsub]

/-- C4 (witness): `-h up --name foo` on the sample parser. -/
theorem C4_help_with_command_witness :
    (Parse sampleParser ["-h", "up", "--name", "foo"]).err = none ∧
      (Parse sampleParser ["-h", "up", "--name", "foo"]).config.Command = "help" ∧
      (Parse sampleParser ["-h", "up", "--name", "foo"]).config.SubcommandFlags =
        (sampleParser.FindCommand ["-h", "up", "--name", "foo"]).Command ::
          (sampleParser.FindCommand ["-h", "up", "--name", "foo"]).OtherArgs :=
  C4_help_with_command sampleParser ["-h", "up", "--name", "foo"]
    (by decide) (by decide) (by decide) (by decide) (by decide)

/-! ## C5 -/

/-- C5 (counterexample): with no positional token and neither help nor version
set, `Parse` does not resolve to help when the empty name is registered
(`--debug`, the returned `Command` is empty), when a global flag is unknown
(`--bogus`, an error), and when the working-directory lookup fails (the empty
argument list, an error). -/
theorem C5_counterexample :
    ((FindCommand ["--debug"]).Command = "" ∧
        (parsedFlags (newParser ["", "up"] emptyEnv ("/home", none)) ["--debug"]).config.help
          = false ∧
        (parsedFlags (newParser ["", "up"] emptyEnv ("/home", none)) ["--debug"]).config.version
          = false ∧
        (Parse (newParser ["", "up"] emptyEnv ("/home", none)) ["--debug"]).err = none ∧
        (Parse (newParser ["", "up"] emptyEnv ("/home", none)) ["--debug"]).config.Command
          = "") ∧
      ((FindCommand ["--bogus"]).Command = "" ∧
        (parsedFlags sampleParser ["--bogus"]).config.help = false ∧
        (parsedFlags sampleParser ["--bogus"]).config.version = false ∧
        (Parse sampleParser ["--bogus"]).err = some "flag provided but not defined: -bogus" ∧
        (Parse sampleParser ["--bogus"]).config.Command = "") ∧
      ((FindCommand []).Command = "" ∧
        (parsedFlags sampleParserNoWd []).config.help = false ∧
        (parsedFlags sampleParserNoWd []).config.version = false ∧
        (Parse sampleParserNoWd []).err = some "getwd: no such file or directory" ∧
        (Parse sampleParserNoWd []).config.Command = "") := by
  decide

/-- C5 (amended): for every argument list with no positional token (the
finder's `Command` is the empty string) whose global flags decode successfully
with neither help nor version set, when the empty name is not registered and a
state directory is given or the working-directory lookup succeeds, `Parse`
returns no error, resolves `Command` to `"help"` and leaves `SubcommandFlags`
equal to the finder's `OtherArgs` with no token prepended; in particular, under
the same two provisos, the empty argument list yields `Command = "help"` and
empty `SubcommandFlags`. -/
theorem C5_blank_command_is_help :
    (∀ (p : CommandLineParser) (arguments : List String),
      (p.FindCommand arguments).Command = "" →
      "" ∉ p.commandSet →
      (parsedFlags p arguments).err = none →
      (parsedFlags p arguments).config.help = false →
      (parsedFlags p arguments).config.version = false →
      ((parsedFlags p arguments).config.StateDir ≠ "" ∨ p.getwd.2 = none) →
      (Parse p arguments).err = none ∧
        (Parse p arguments).config.Command = "help" ∧
        (Parse p arguments).config.SubcommandFlags = (p.FindCommand arguments).OtherArgs) ∧
    (∀ (commandSet : List String) (envGetter : String → String) (wd : String),
      "" ∉ commandSet →
      (Parse (newParser commandSet envGetter (wd, none)) []).err = none ∧
        (Parse (newParser commandSet envGetter (wd, none)) []).config.Command = "help" ∧
        (Parse (newParser commandSet envGetter (wd, none)) []).config.SubcommandFlags = []) := by
  have general : ∀ (p : CommandLineParser) (arguments : List String),
      (p.FindCommand arguments).Command = "" →
      "" ∉ p.commandSet →
      (parsedFlags p arguments).err = none →
      (parsedFlags p arguments).config.help = false →
      (parsedFlags p arguments).config.version = false →
      ((parsedFlags p arguments).config.StateDir ≠ "" ∨ p.getwd.2 = none) →
      (Parse p arguments).err = none ∧
        (Parse p arguments).config.Command = "help" ∧
        (Parse p arguments).config.SubcommandFlags = (p.FindCommand arguments).OtherArgs := by
    intro p arguments hblank hreg hok _ hversion hwd
    obtain ⟨h1, h2, h3⟩ :=
      Parse_success p arguments (commandNotFoundError_eq_none (Or.inr hblank)) hok hwd
    have hsub := parsedFlags_SubcommandFlags p arguments hok
    refine ⟨h1, ?_, ?_⟩
    · rw [h2, resolvedConfiguration, commandWasBlank_eq_true hblank hreg,
        applyPrecedence_blank _ _ hversion]
    · rw [h3, resolvedConfiguration, commandWasBlank_eq_true hblank hreg,
        applyPrecedence_blank _ _ hversion, hsub]
  refine ⟨general, fun commandSet envGetter wd hreg => ?_⟩
  exact general (newParser commandSet envGetter (wd, none)) [] rfl hreg rfl rfl rfl (Or.inr rfl)

/-- C5 (witness): `--debug` on the sample parser, and the empty argument list
over the sample registry. -/
theorem C5_blank_command_is_help_witness :
    ((Parse sampleParser ["--debug"]).err = none ∧
        (Parse sampleParser ["--debug"]).config.Command = "help" ∧
        (Parse sampleParser ["--debug"]).config.SubcommandFlags =
          (sampleParser.FindCommand ["--debug"]).OtherArgs) ∧
      ((Parse (newParser ["up", "deploy"] emptyEnv ("/home", none)) []).err = none ∧
        (Parse (newParser ["up", "deploy"] emptyEnv ("/home", none)) []).config.Command
          = "help" ∧
        (Parse (newParser ["up", "deploy"] emptyEnv ("/home", none)) []).config.SubcommandFlags
          = []) :=
  ⟨C5_blank_command_is_help.1 sampleParser ["--debug"]
      (by decide) (by decide) (by decide) (by decide) (by decide) (by decide),
    C5_blank_command_is_help.2 ["up", "deploy"] emptyEnv "/home" (by decide)⟩

/-! ## C6 -/

/-- C6: for every argument list whose command candidate T is non-empty and not
in the registry, `Parse` fails with the error `Unrecognized command 'T'`, and
the usage callback is invoked exactly once.  Nothing is assumed of the global
flags: they may set neither help nor version, and they may be malformed, in
which case no flag error is returned in place of this one. -/
theorem C6_unrecognized_command (p : CommandLineParser) (arguments : List String)
    (hne : (p.FindCommand arguments).Command ≠ "")
    (hnr : (p.FindCommand arguments).Command ∉ p.commandSet) :
    (Parse p arguments).err =
        some ("Unrecognized command '" ++ (p.FindCommand arguments).Command ++ "'") ∧
      usageCalls (Parse p arguments).trace = 1 := by
  rw [Parse_of_notFound p arguments _ (commandNotFoundError_eq_some hne hnr)]
  exact ⟨rfl, usageCalls_parse_error_trace p arguments⟩

/-- C6 (witness): `--bogus badcmd` on the sample parser: the global flags are
malformed as well, and the error names `badcmd`. -/
theorem C6_unrecognized_command_witness :
    (parsedFlags sampleParser ["--bogus", "badcmd"]).err =
        some "flag provided but not defined: -bogus" ∧
      (Parse sampleParser ["--bogus", "badcmd"]).err =
        some ("Unrecognized command '" ++
          (sampleParser.FindCommand ["--bogus", "badcmd"]).Command ++ "'") ∧
      usageCalls (Parse sampleParser ["--bogus", "badcmd"]).trace = 1 :=
  ⟨by decide,
    C6_unrecognized_command sampleParser ["--bogus", "badcmd"] (by decide) (by decide)⟩

/-! ## C7 -/

/-- C7 (counterexample): an argument list with two occurrences of the state-dir
flag parses without error when they follow the command (`up --state-dir=a
-state-dir b`), and fails with the unrecognized-command error, not the
duplicate-flag error, when the command candidate is not registered
(`--state-dir=a --state-dir=b badcmd`). -/
theorem C7_counterexample :
    (stateDirOccurrences ["up", "--state-dir=a", "-state-dir", "b"] = 2 ∧
        (Parse sampleParser ["up", "--state-dir=a", "-state-dir", "b"]).err = none ∧
        usageCalls (Parse sampleParser ["up", "--state-dir=a", "-state-dir", "b"]).trace = 0) ∧
      (stateDirOccurrences ["--state-dir=a", "--state-dir=b", "badcmd"] = 2 ∧
        (Parse sampleParser ["--state-dir=a", "--state-dir=b", "badcmd"]).err =
          some "Unrecognized command 'badcmd'") := by
  decide

/-- C7 (amended): for every argument list whose command candidate is in the
registry or blank and whose global-flag region (the finder's `GlobalFlags`)
contains two occurrences of the state-dir flag, in any combination of the
spellings `--state-dir` and `-state-dir` (with or without an `=value` suffix),
`Parse` fails with the duplicate-flag error `Invalid usage: cannot specify
global 'state-dir' flag more than once.` and the usage callback is invoked
exactly once. -/
theorem C7_duplicate_state_dir (p : CommandLineParser) (arguments : List String)
    (hcmd : (p.FindCommand arguments).Command ∈ p.commandSet ∨
      (p.FindCommand arguments).Command = "")
    (hdup : 2 ≤ stateDirOccurrences (p.FindCommand arguments).GlobalFlags) :
    (Parse p arguments).err =
        some "Invalid usage: cannot specify global 'state-dir' flag more than once." ∧
      usageCalls (Parse p arguments).trace = 1 := by
  rw [Parse_of_flagError p arguments _ (commandNotFoundError_eq_none hcmd)
    (parsedFlags_of_duplicate p arguments hdup)]
  exact ⟨rfl, usageCalls_parse_error_trace p arguments⟩

/-- C7 (witness): `--state-dir=a -state-dir b up` on the sample parser. -/
theorem C7_duplicate_state_dir_witness :
    (Parse sampleParser ["--state-dir=a", "-state-dir", "b", "up"]).err =
        some "Invalid usage: cannot specify global 'state-dir' flag more than once." ∧
      usageCalls (Parse sampleParser ["--state-dir=a", "-state-dir", "b", "up"]).trace = 1 :=
  C7_duplicate_state_dir sampleParser ["--state-dir=a", "-state-dir", "b", "up"]
    (by decide) (by decide)

/-! ## C8 -/

/-- C8: for every argument list whose command candidate is in the registry or
is blank (no unrecognized-command error pending): if the global flag parser
fails with error e, `Parse` invokes the usage callback (once) and returns
exactly e, without consulting the working directory. -/
theorem C8_flag_error_surfaces (p : CommandLineParser) (arguments : List String) (e : GoError)
    (hcmd : (p.FindCommand arguments).Command ∈ p.commandSet ∨
      (p.FindCommand arguments).Command = "")
    (he : (parsedFlags p arguments).err = some e) :
    (Parse p arguments).err = some e ∧
      usageCalls (Parse p arguments).trace = 1 ∧
      Event.getwd ∉ (Parse p arguments).trace := by
  rw [Parse_of_flagError p arguments e (commandNotFoundError_eq_none hcmd) he]
  exact ⟨rfl, usageCalls_parse_error_trace p arguments,
    getwd_not_mem_parse_error_trace p arguments⟩

/-- C8 (witness): `--bogus up` on the sample parser. -/
theorem C8_flag_error_surfaces_witness :
    (Parse sampleParser ["--bogus", "up"]).err =
        some "flag provided but not defined: -bogus" ∧
      usageCalls (Parse sampleParser ["--bogus", "up"]).trace = 1 ∧
      Event.getwd ∉ (Parse sampleParser ["--bogus", "up"]).trace :=
  C8_flag_error_surfaces sampleParser ["--bogus", "up"]
    "flag provided but not defined: -bogus" (by decide) (by decide)

/-! ## C9 -/

/-- C9: whenever `Parse` returns a non-nil error (flag error, unrecognized
command, or working-directory failure), the configuration it returns is the
zero value: `Command` empty, `SubcommandFlags` empty, `StateDir` empty, `Debug`
false, help and version false. -/
theorem C9_error_gives_zero_configuration (p : CommandLineParser) (arguments : List String)
    (h : (Parse p arguments).err ≠ none) :
    (Parse p arguments).config =
      { Command := "", SubcommandFlags := [], StateDir := "", Debug := false,
        help := false, version := false } := by
  rcases he : (Parse p arguments).err with _ | e
  · exact absurd he h
  · exact (Parse_error_cases p arguments e he).1

/-- C9 (witness): the three kinds of error, on `--bogus up`, on `badcmd` and on
`up` with a failing working-directory lookup. -/
theorem C9_error_gives_zero_configuration_witness :
    (Parse sampleParser ["--bogus", "up"]).config =
        { Command := "", SubcommandFlags := [], StateDir := "", Debug := false,
          help := false, version := false } ∧
      (Parse sampleParser ["--debug", "badcmd"]).config =
        { Command := "", SubcommandFlags := [], StateDir := "", Debug := false,
          help := false, version := false } ∧
      (Parse sampleParserNoWd ["--debug", "up"]).config =
        { Command := "", SubcommandFlags := [], StateDir := "", Debug := false,
          help := false, version := false } :=
  ⟨C9_error_gives_zero_configuration sampleParser ["--bogus", "up"] (by decide),
    C9_error_gives_zero_configuration sampleParser ["--debug", "badcmd"] (by decide),
    C9_error_gives_zero_configuration sampleParserNoWd ["--debug", "up"] (by decide)⟩

/-! ## C10 -/

/-- C10 (counterexample): for `up` with no state directory given and a failing
working-directory lookup, `Parse` returns a non-nil error and the usage
callback has not been invoked. -/
theorem C10_counterexample :
    (Parse sampleParserNoWd ["up"]).err = some "getwd: no such file or directory" ∧
      usageCalls (Parse sampleParserNoWd ["up"]).trace = 0 := by
  decide

/-- C10 (amended): whenever `Parse` returns a non-nil error, either the usage
callback has been invoked exactly once during that parse (and the working
directory was not consulted), or the error is the one returned by the
working-directory lookup and the usage callback has not been invoked. -/
theorem C10_usage_on_error (p : CommandLineParser) (arguments : List String) (e : GoError)
    (h : (Parse p arguments).err = some e) :
    (usageCalls (Parse p arguments).trace = 1 ∧ Event.getwd ∉ (Parse p arguments).trace) ∨
      (usageCalls (Parse p arguments).trace = 0 ∧ Event.getwd ∈ (Parse p arguments).trace ∧
        p.getwd.2 = some e) :=
  (Parse_error_cases p arguments e h).2

/-- C10 (witness): `--bogus up` on the sample parser. -/
theorem C10_usage_on_error_witness :
    (usageCalls (Parse sampleParser ["--bogus", "up"]).trace = 1 ∧
        Event.getwd ∉ (Parse sampleParser ["--bogus", "up"]).trace) ∨
      (usageCalls (Parse sampleParser ["--bogus", "up"]).trace = 0 ∧
        Event.getwd ∈ (Parse sampleParser ["--bogus", "up"]).trace ∧
        sampleParser.getwd.2 = some "flag provided but not defined: -bogus") :=
  C10_usage_on_error sampleParser ["--bogus", "up"]
    "flag provided but not defined: -bogus" (by decide)

/-! ## C11 -/

/-- C11: for every argument list that passes command and flag resolution (the
candidate is registered or blank and the global flags decode successfully) with
an empty `StateDir`: if the working-directory lookup fails with error e,
`Parse` returns exactly e together with a zero-value configuration, and the
usage callback is not invoked at all. -/
theorem C11_getwd_error_propagates (p : CommandLineParser) (arguments : List String)
    (e : GoError)
    (hcmd : (p.FindCommand arguments).Command ∈ p.commandSet ∨
      (p.FindCommand arguments).Command = "")
    (hok : (parsedFlags p arguments).err = none)
    (hsd : (parsedFlags p arguments).config.StateDir = "")
    (hwd : p.getwd.2 = some e) :
    (Parse p arguments).err = some e ∧
      (Parse p arguments).config = CommandLineConfiguration.zero ∧
      usageCalls (Parse p arguments).trace = 0 := by
  rw [Parse_of_getwd_error p arguments e (commandNotFoundError_eq_none hcmd) hok hsd hwd]
  refine ⟨rfl, rfl, ?_⟩
  rw [usageCalls_append, usageCalls_parsedFlags]
  decide

/-- C11 (witness): `--debug up` with a failing working-directory lookup. -/
theorem C11_getwd_error_propagates_witness :
    (Parse sampleParserNoWd ["--debug", "up"]).err =
        some "getwd: no such file or directory" ∧
      (Parse sampleParserNoWd ["--debug", "up"]).config = CommandLineConfiguration.zero ∧
      usageCalls (Parse sampleParserNoWd ["--debug", "up"]).trace = 0 :=
  C11_getwd_error_propagates sampleParserNoWd ["--debug", "up"]
    "getwd: no such file or directory" (by decide) (by decide) (by decide) (by decide)

/-! ## C12 -/

/-- C12 (counterexample): a state-dir flag supplied with the empty value
(`--state-dir= up`, or `--state-dir` followed by an empty token) decodes
without error to an empty state directory; the returned `StateDir` is then the
working directory, not the supplied value, and a failing working-directory
lookup fails the parse. -/
theorem C12_counterexample :
    ((parsedFlags sampleParser ["--state-dir=", "up"]).err = none ∧
        (parsedFlags sampleParser ["--state-dir=", "up"]).config.StateDir = "" ∧
        (Parse sampleParser ["--state-dir=", "up"]).err = none ∧
        (Parse sampleParser ["--state-dir=", "up"]).config.StateDir = "/home") ∧
      ((parsedFlags sampleParserNoWd ["--state-dir", "", "up"]).err = none ∧
        (parsedFlags sampleParserNoWd ["--state-dir", "", "up"]).config.StateDir = "" ∧
        (Parse sampleParserNoWd ["--state-dir", "", "up"]).err =
          some "getwd: no such file or directory") := by
  decide

/-- C12 (amended): for every parse whose command candidate is registered or
blank and whose global flags decode successfully, and every non-empty string
d: if the state-dir flag decodes to d, the parse succeeds with `StateDir = d`
exactly and the working directory is not consulted (so its failure cannot fail
the parse); if the decoded state directory is empty (the flag omitted, or given
the empty value), the `StateDir` of a successful parse is the string returned
by the working-directory lookup.  With the modelled finder and flag set:
`--state-dir d` before a registered command gives `StateDir = d` for every
non-empty d that does not itself name the state-dir flag, and a successful
parse whose global flags hold no state-dir flag gives the working directory. -/
theorem C12_state_dir :
    (∀ (p : CommandLineParser) (arguments : List String),
      ((p.FindCommand arguments).Command ∈ p.commandSet ∨
        (p.FindCommand arguments).Command = "") →
      (parsedFlags p arguments).err = none →
      (parsedFlags p arguments).config.StateDir ≠ "" →
      (Parse p arguments).err = none ∧
        (Parse p arguments).config.StateDir = (parsedFlags p arguments).config.StateDir ∧
        Event.getwd ∉ (Parse p arguments).trace) ∧
    (∀ (p : CommandLineParser) (arguments : List String),
      (Parse p arguments).err = none →
      (parsedFlags p arguments).config.StateDir = "" →
      (Parse p arguments).config.StateDir = p.getwd.1) ∧
    (∀ (commandSet : List String) (envGetter : String → String)
        (wd : String × Option GoError) (d cmd : String) (rest : List String),
      cmd ∈ commandSet → looksLikeFlag cmd = false → d ≠ "" → namesStateDir d = false →
      (Parse (newParser commandSet envGetter wd) ("--state-dir" :: d :: cmd :: rest)).err
          = none ∧
        (Parse (newParser commandSet envGetter wd)
          ("--state-dir" :: d :: cmd :: rest)).config.StateDir = d ∧
        Event.getwd ∉
          (Parse (newParser commandSet envGetter wd) ("--state-dir" :: d :: cmd :: rest)).trace) ∧
    (∀ (commandSet : List String) (envGetter : String → String)
        (wd : String × Option GoError) (arguments : List String),
      (Parse (newParser commandSet envGetter wd) arguments).err = none →
      (∀ t ∈ (FindCommand arguments).GlobalFlags, ∀ v, flagStep t ≠ FlagStep.stateDir v) →
      (Parse (newParser commandSet envGetter wd) arguments).config.StateDir = wd.1) := by
  have given : ∀ (p : CommandLineParser) (arguments : List String),
      ((p.FindCommand arguments).Command ∈ p.commandSet ∨
        (p.FindCommand arguments).Command = "") →
      (parsedFlags p arguments).err = none →
      (parsedFlags p arguments).config.StateDir ≠ "" →
      (Parse p arguments).err = none ∧
        (Parse p arguments).config.StateDir = (parsedFlags p arguments).config.StateDir ∧
        Event.getwd ∉ (Parse p arguments).trace := by
    intro p arguments hcmd hok hsd
    rw [Parse_of_stateDir p arguments (commandNotFoundError_eq_none hcmd) hok hsd]
    refine ⟨rfl, applyPrecedence_StateDir _ _ _, ?_⟩
    rw [List.append_nil]
    exact getwd_not_mem_parseGlobalFlags p _ _
  have omitted : ∀ (p : CommandLineParser) (arguments : List String),
      (Parse p arguments).err = none →
      (parsedFlags p arguments).config.StateDir = "" →
      (Parse p arguments).config.StateDir = p.getwd.1 := by
    intro p arguments h hsd
    rw [(Parse_err_none_Debug_StateDir p arguments h).2, if_pos hsd]
  refine ⟨given, omitted, ?_, ?_⟩
  · intro commandSet envGetter wd d cmd rest hmem hcmd hd hname
    obtain ⟨hok, hsd⟩ :=
      parsedFlags_stateDir_value commandSet envGetter wd d cmd rest hcmd hname
    have hfind : ((newParser commandSet envGetter wd).FindCommand
        ("--state-dir" :: d :: cmd :: rest)).Command = cmd := by
      show (FindCommand ("--state-dir" :: d :: cmd :: rest)).Command = cmd
      rw [FindCommand_stateDir_value d cmd rest hcmd]
    have := given (newParser commandSet envGetter wd) ("--state-dir" :: d :: cmd :: rest)
      (Or.inl (by rw [hfind]; exact hmem)) hok (by rw [hsd]; exact hd)
    rw [hsd] at this
    exact this
  · intro commandSet envGetter wd arguments h hno
    have hok := (Parse_err_none _ arguments h).2.1
    have hsd : (parsedFlags (newParser commandSet envGetter wd) arguments).config.StateDir
        = "" := by
      rw [(parsedFlags_ok _ arguments hok).1]
      exact flagsParseLoop_StateDir _ _ hno
    exact omitted _ arguments h hsd

/-- C12 (witness): `--state-dir /tmp/x up` with a failing working-directory
lookup gives `/tmp/x`; `up` alone gives the working directory. -/
theorem C12_state_dir_witness :
    ((Parse sampleParserNoWd ["--state-dir", "/tmp/x", "up"]).err = none ∧
        (Parse sampleParserNoWd ["--state-dir", "/tmp/x", "up"]).config.StateDir = "/tmp/x" ∧
        Event.getwd ∉ (Parse sampleParserNoWd ["--state-dir", "/tmp/x", "up"]).trace) ∧
      (Parse sampleParser ["--debug", "up"]).config.StateDir = sampleParser.getwd.1 ∧
      (Parse (newParser ["up", "deploy"] emptyEnv ("/home", none))
        ["--debug", "up"]).config.StateDir = "/home" ∧
      ((Parse sampleParserNoWd ["--state-dir=/tmp/x", "up"]).err = none ∧
        (Parse sampleParserNoWd ["--state-dir=/tmp/x", "up"]).config.StateDir =
          (parsedFlags sampleParserNoWd ["--state-dir=/tmp/x", "up"]).config.StateDir ∧
        Event.getwd ∉ (Parse sampleParserNoWd ["--state-dir=/tmp/x", "up"]).trace) :=
  ⟨C12_state_dir.2.2.1 ["up", "deploy"] emptyEnv
      ("", some "getwd: no such file or directory") "/tmp/x" "up" []
      (by decide) (by decide) (by decide) (by decide),
    C12_state_dir.2.1 sampleParser ["--debug", "up"] (by decide) (by decide),
    C12_state_dir.2.2.2 ["up", "deploy"] emptyEnv ("/home", none) ["--debug", "up"]
      (by decide)
      (by
        intro t ht v
        have ht2 : t = "--debug" := List.mem_singleton.mp ht
        subst ht2
        rw [show flagStep "--debug" = FlagStep.debug true by decide]
        exact fun h => FlagStep.noConfusion h),
    C12_state_dir.1 sampleParserNoWd ["--state-dir=/tmp/x", "up"]
      (by decide) (by decide) (by decide)⟩

/-! ## C13 -/

/-- C13: for every successful parse, the returned `Debug` is the value the flag
set decodes for the debug flag, starting from a default that is true if and
only if the environment value of `BBL_DEBUG` is exactly the string `"true"`.
With the modelled finder and flag set: when the global flags contain no debug
flag, the returned `Debug` is true if and only if `BBL_DEBUG` is exactly
`"true"` (so `"TRUE"`, `"1"` or unset give false); and an explicit debug flag
is used instead of the environment default (`--debug` gives true and
`--debug=false` gives false in every environment). -/
theorem C13_debug_default :
    (∀ (p : CommandLineParser) (arguments : List String),
      (Parse p arguments).err = none →
      (Parse p arguments).config.Debug =
        (p.flagsParse
          { StateDir := "", Debug := decide (p.envGetter "BBL_DEBUG" = "true"),
            help := false, version := false }
          (p.FindCommand arguments).GlobalFlags).vars.Debug) ∧
    (∀ (commandSet : List String) (envGetter : String → String)
        (wd : String × Option GoError) (arguments : List String),
      (Parse (newParser commandSet envGetter wd) arguments).err = none →
      (∀ t ∈ (FindCommand arguments).GlobalFlags, ∀ b, flagStep t ≠ FlagStep.debug b) →
      ((Parse (newParser commandSet envGetter wd) arguments).config.Debug = true ↔
        envGetter "BBL_DEBUG" = "true")) ∧
    (∀ (commandSet : List String) (envGetter : String → String) (wd : String),
      "up" ∈ commandSet →
      ((Parse (newParser commandSet envGetter (wd, none)) ["--debug", "up"]).err = none ∧
        (Parse (newParser commandSet envGetter (wd, none)) ["--debug", "up"]).config.Debug
          = true) ∧
      ((Parse (newParser commandSet envGetter (wd, none)) ["--debug=false", "up"]).err
          = none ∧
        (Parse (newParser commandSet envGetter (wd, none))
          ["--debug=false", "up"]).config.Debug = false)) := by
  have general : ∀ (p : CommandLineParser) (arguments : List String),
      (Parse p arguments).err = none →
      (Parse p arguments).config.Debug =
        (p.flagsParse
          { StateDir := "", Debug := decide (p.envGetter "BBL_DEBUG" = "true"),
            help := false, version := false }
          (p.FindCommand arguments).GlobalFlags).vars.Debug := by
    intro p arguments h
    rw [(Parse_err_none_Debug_StateDir p arguments h).1,
      (parsedFlags_ok p arguments (Parse_err_none p arguments h).2.1).2]
  refine ⟨general, ?_, ?_⟩
  · intro commandSet envGetter wd arguments h hno
    rw [general _ arguments h]
    have hkeep := flagsParseLoop_Debug (FindCommand arguments).GlobalFlags false
      { StateDir := "", Debug := decide (envGetter "BBL_DEBUG" = "true"),
        help := false, version := false } hno
    change (flagsParseLoop false
      { StateDir := "", Debug := decide (envGetter "BBL_DEBUG" = "true"),
        help := false, version := false }
      (FindCommand arguments).GlobalFlags).vars.Debug = true ↔ _
    rw [hkeep]
    exact decide_eq_true_iff
  · intro commandSet envGetter wd hup
    have h1 := Parse_success (newParser commandSet envGetter (wd, none)) ["--debug", "up"]
      (commandNotFoundError_eq_none (Or.inl hup)) rfl (Or.inr rfl)
    have h2 := Parse_success (newParser commandSet envGetter (wd, none))
      ["--debug=false", "up"]
      (commandNotFoundError_eq_none (Or.inl hup)) rfl (Or.inr rfl)
    refine ⟨⟨h1.1, ?_⟩, ⟨h2.1, ?_⟩⟩
    · rw [general _ _ h1.1]
      rfl
    · rw [general _ _ h2.1]
      rfl

/-- C13 (witness): on `up` the returned `Debug` follows `BBL_DEBUG`: true for
`"true"`, false for `"TRUE"`, `"1"` and unset; and `--debug=false` overrides
`BBL_DEBUG=true`. -/
theorem C13_debug_default_witness :
    (Parse (newParser ["up"] (fun _ => "true") ("/home", none)) ["up"]).config.Debug = true ∧
      (Parse (newParser ["up"] (fun _ => "TRUE") ("/home", none)) ["up"]).config.Debug
        = false ∧
      (Parse (newParser ["up"] (fun _ => "1") ("/home", none)) ["up"]).config.Debug = false ∧
      (Parse (newParser ["up"] emptyEnv ("/home", none)) ["up"]).config.Debug = false ∧
      ((Parse (newParser ["up"] (fun _ => "true") ("/home", none))
          ["--debug=false", "up"]).err = none ∧
        (Parse (newParser ["up"] (fun _ => "true") ("/home", none))
          ["--debug=false", "up"]).config.Debug = false) :=
  ⟨(C13_debug_default.2.1 ["up"] (fun _ => "true") ("/home", none) ["up"]
      (by decide) (by decide)).mpr (by decide),
    Bool.eq_false_iff.mpr (fun h =>
      absurd ((C13_debug_default.2.1 ["up"] (fun _ => "TRUE") ("/home", none) ["up"]
        (by decide) (by decide)).mp h) (by decide)),
    Bool.eq_false_iff.mpr (fun h =>
      absurd ((C13_debug_default.2.1 ["up"] (fun _ => "1") ("/home", none) ["up"]
        (by decide) (by decide)).mp h) (by decide)),
    Bool.eq_false_iff.mpr (fun h =>
      absurd ((C13_debug_default.2.1 ["up"] emptyEnv ("/home", none) ["up"]
        (by decide) (by decide)).mp h) (by decide)),
    (C13_debug_default.2.2 ["up"] (fun _ => "true") "/home" (by decide)).2⟩

/-! ## C14 -/

/-- C14 (counterexample): for `deploy --name foo`, with `deploy` registered and
neither help nor version set, `Parse` returns an error (and an empty
`Command`) when the working-directory lookup fails. -/
theorem C14_counterexample :
    (sampleParserNoWd.FindCommand ["deploy", "--name", "foo"]).Command ∈
        sampleParserNoWd.commandSet ∧
      (parsedFlags sampleParserNoWd ["deploy", "--name", "foo"]).err = none ∧
      (parsedFlags sampleParserNoWd ["deploy", "--name", "foo"]).config.help = false ∧
      (parsedFlags sampleParserNoWd ["deploy", "--name", "foo"]).config.version = false ∧
      (Parse sampleParserNoWd ["deploy", "--name", "foo"]).err =
        some "getwd: no such file or directory" ∧
      (Parse sampleParserNoWd ["deploy", "--name", "foo"]).config.Command ≠ "deploy" := by
  decide

/-- C14 (amended): for every argument list whose command candidate C is in the
registry, whose global flags decode successfully with neither help nor version
set, and for which a state directory is given or the working-directory lookup
succeeds, `Parse` returns no error with `Command = C` and `SubcommandFlags`
equal to the finder's `OtherArgs` verbatim; e.g. `deploy --name foo` with
`deploy` registered and a working directory gives `Command = "deploy"` and
`SubcommandFlags = ["--name", "foo"]`. -/
theorem C14_named_command :
    (∀ (p : CommandLineParser) (arguments : List String),
      (p.FindCommand arguments).Command ∈ p.commandSet →
      (parsedFlags p arguments).err = none →
      (parsedFlags p arguments).config.help = false →
      (parsedFlags p arguments).config.version = false →
      ((parsedFlags p arguments).config.StateDir ≠ "" ∨ p.getwd.2 = none) →
      (Parse p arguments).err = none ∧
        (Parse p arguments).config.Command = (p.FindCommand arguments).Command ∧
        (Parse p arguments).config.SubcommandFlags = (p.FindCommand arguments).OtherArgs) ∧
    (∀ (commandSet : List String) (envGetter : String → String) (wd : String),
      "deploy" ∈ commandSet →
      (Parse (newParser commandSet envGetter (wd, none)) ["deploy", "--name", "foo"]).err
          = none ∧
        (Parse (newParser commandSet envGetter (wd, none))
          ["deploy", "--name", "foo"]).config.Command = "deploy" ∧
        (Parse (newParser commandSet envGetter (wd, none))
          ["deploy", "--name", "foo"]).config.SubcommandFlags = ["--name", "foo"]) := by
  have general : ∀ (p : CommandLineParser) (arguments : List String),
      (p.FindCommand arguments).Command ∈ p.commandSet →
      (parsedFlags p arguments).err = none →
      (parsedFlags p arguments).config.help = false →
      (parsedFlags p arguments).config.version = false →
      ((parsedFlags p arguments).config.StateDir ≠ "" ∨ p.getwd.2 = none) →
      (Parse p arguments).err = none ∧
        (Parse p arguments).config.Command = (p.FindCommand arguments).Command ∧
        (Parse p arguments).config.SubcommandFlags = (p.FindCommand arguments).OtherArgs := by
    intro p arguments hcmd hok hhelp hversion hwd
    obtain ⟨h1, h2, h3⟩ :=
      Parse_success p arguments (commandNotFoundError_eq_none (Or.inl hcmd)) hok hwd
    have hsub := parsedFlags_SubcommandFlags p arguments hok
    refine ⟨h1, ?_, ?_⟩
    · rw [h2, resolvedConfiguration, commandWasBlank_eq_false_of_mem hcmd,
        applyPrecedence_named _ _ hversion hhelp]
    · rw [h3, resolvedConfiguration, commandWasBlank_eq_false_of_mem hcmd,
        applyPrecedence_named _ _ hversion hhelp, hsub]
  refine ⟨general, fun commandSet envGetter wd hreg => ?_⟩
  exact general (newParser commandSet envGetter (wd, none)) ["deploy", "--name", "foo"]
    hreg rfl rfl rfl (Or.inr rfl)

/-- C14 (witness): `--debug up --name foo` on the sample parser, and
`deploy --name foo` over the sample registry. -/
theorem C14_named_command_witness :
    ((Parse sampleParser ["--debug", "up", "--name", "foo"]).err = none ∧
        (Parse sampleParser ["--debug", "up", "--name", "foo"]).config.Command =
          (sampleParser.FindCommand ["--debug", "up", "--name", "foo"]).Command ∧
        (Parse sampleParser ["--debug", "up", "--name", "foo"]).config.SubcommandFlags =
          (sampleParser.FindCommand ["--debug", "up", "--name", "foo"]).OtherArgs) ∧
      ((Parse (newParser ["up", "deploy"] emptyEnv ("/home", none))
          ["deploy", "--name", "foo"]).err = none ∧
        (Parse (newParser ["up", "deploy"] emptyEnv ("/home", none))
          ["deploy", "--name", "foo"]).config.Command = "deploy" ∧
        (Parse (newParser ["up", "deploy"] emptyEnv ("/home", none))
          ["deploy", "--name", "foo"]).config.SubcommandFlags = ["--name", "foo"]) :=
  ⟨C14_named_command.1 sampleParser ["--debug", "up", "--name", "foo"]
      (by decide) (by decide) (by decide) (by decide) (by decide),
    C14_named_command.2 ["up", "deploy"] emptyEnv "/home" (by decide)⟩

/-! ## C15 -/

/-- C15: for every token list, `validateGlobalFlags` returns the duplicate-flag
error if and only if at least two tokens have, as the text before their first
`=` character (the whole token when it has no `=`), exactly `--state-dir` or
`-state-dir`; otherwise it returns nil.  Mixed spellings count together, and
element 0 of the split is always in range (it is that text), including for the
empty token. -/
theorem C15_validateGlobalFlags_spec (arguments : List String) (argument : String) :
    validateGlobalFlags arguments = validateGlobalFlagsSpec arguments ∧
      (validateGlobalFlags arguments =
          some "Invalid usage: cannot specify global 'state-dir' flag more than once." ↔
        2 ≤ arguments.countP
          (fun token => decide (textBeforeFirstEq token = "--state-dir" ∨
            textBeforeFirstEq token = "-state-dir"))) ∧
      (validateGlobalFlags arguments = none ↔
        arguments.countP
          (fun token => decide (textBeforeFirstEq token = "--state-dir" ∨
            textBeforeFirstEq token = "-state-dir")) < 2) ∧
      (stringsSplit argument '=')[0]? = some (textBeforeFirstEq argument) ∧
      (stringsSplit "" '=')[0]? = some "" := by
  refine ⟨validateGlobalFlags_eq_spec arguments, ?_, ?_, stringsSplit_zero argument '=', rfl⟩
  · rw [validateGlobalFlags_eq_spec, validateGlobalFlagsSpec]
    generalize arguments.countP _ = n
    by_cases h : 2 ≤ n
    · rw [if_pos h]
      exact ⟨fun _ => h, fun _ => rfl⟩
    · rw [if_neg h]
      exact ⟨fun e => (by cases e), fun h2 => absurd h2 h⟩
  · rw [validateGlobalFlags_eq_spec, validateGlobalFlagsSpec]
    generalize arguments.countP _ = n
    by_cases h : 2 ≤ n
    · rw [if_pos h]
      exact ⟨fun e => (by cases e), fun h2 => absurd h (by omega)⟩
    · rw [if_neg h]
      exact ⟨fun _ => by omega, fun _ => rfl⟩

/-! ## C16 -/

/-- C16 (counterexample): for `-v -h up`, with `up` registered and both version
and help set, `Parse` returns an error and an empty `Command` when the
working-directory lookup fails. -/
theorem C16_counterexample :
    (sampleParserNoWd.FindCommand ["-v", "-h", "up"]).Command ∈
        sampleParserNoWd.commandSet ∧
      (parsedFlags sampleParserNoWd ["-v", "-h", "up"]).err = none ∧
      (parsedFlags sampleParserNoWd ["-v", "-h", "up"]).config.version = true ∧
      (parsedFlags sampleParserNoWd ["-v", "-h", "up"]).config.help = true ∧
      (Parse sampleParserNoWd ["-v", "-h", "up"]).err =
        some "getwd: no such file or directory" ∧
      (Parse sampleParserNoWd ["-v", "-h", "up"]).config.Command ≠ "version" := by
  decide

/-- C16 (amended): version takes precedence over help: for every argument list
whose command candidate is in the registry or blank, whose global flags decode
successfully with both version and help set, and for which a state directory is
given or the working-directory lookup succeeds, `Parse` returns no error with
`Command = "version"` and `SubcommandFlags` equal to the finder's `OtherArgs`,
i.e. the command token is not prepended. -/
theorem C16_version_beats_help (p : CommandLineParser) (arguments : List String)
    (hcmd : (p.FindCommand arguments).Command ∈ p.commandSet ∨
      (p.FindCommand arguments).Command = "")
    (hok : (parsedFlags p arguments).err = none)
    (hversion : (parsedFlags p arguments).config.version = true)
    (_hhelp : (parsedFlags p arguments).config.help = true)
    (hwd : (parsedFlags p arguments).config.StateDir ≠ "" ∨ p.getwd.2 = none) :
    (Parse p arguments).err = none ∧
      (Parse p arguments).config.Command = "version" ∧
      (Parse p arguments).config.SubcommandFlags = (p.FindCommand arguments).OtherArgs := by
  obtain ⟨h1, h2, h3⟩ :=
    Parse_success p arguments (commandNotFoundError_eq_none hcmd) hok hwd
  have hsub := parsedFlags_SubcommandFlags p arguments hok
  refine ⟨h1, ?_, ?_⟩
  · rw [h2, resolvedConfiguration, applyPrecedence_version _ _ _ hversion]
  · rw [h3, resolvedConfiguration, applyPrecedence_version _ _ _ hversion, hsub]

/-- C16 (witness): `-h -v up --name foo` on the sample parser. -/
theorem C16_version_beats_help_witness :
    (Parse sampleParser ["-h", "-v", "up", "--name", "foo"]).err = none ∧
      (Parse sampleParser ["-h", "-v", "up", "--name", "foo"]).config.Command = "version" ∧
      (Parse sampleParser ["-h", "-v", "up", "--name", "foo"]).config.SubcommandFlags =
        (sampleParser.FindCommand ["-h", "-v", "up", "--name", "foo"]).OtherArgs :=
  C16_version_beats_help sampleParser ["-h", "-v", "up", "--name", "foo"]
    (by decide) (by decide) (by decide) (by decide) (by decide)

/-! ## C17 -/

/-- C17 (counterexample): for `--state-dir a -state-dir=b nope`, with `nope`
not registered and a duplicate state-dir flag, the global flag parser fails
with the duplicate-flag error, and the error `Parse` returns is the
unrecognized-command error. -/
theorem C17_counterexample :
    (sampleParser.FindCommand ["--state-dir", "a", "-state-dir=b", "nope"]).Command
        = "nope" ∧
      "nope" ∉ sampleParser.commandSet ∧
      (parsedFlags sampleParser ["--state-dir", "a", "-state-dir=b", "nope"]).err =
        some "Invalid usage: cannot specify global 'state-dir' flag more than once." ∧
      (Parse sampleParser ["--state-dir", "a", "-state-dir=b", "nope"]).err =
        some "Unrecognized command 'nope'" := by
  decide

/-- C17 (amended): for every argument list that has both an unrecognized
(non-empty, unregistered) command candidate and a flag error in its global
flags (for example a duplicate state-dir flag), the error `Parse` returns is
the unrecognized-command error: the flag error is surfaced only when no
unrecognized-command error is pending. -/
theorem C17_unrecognized_command_beats_flag_error (p : CommandLineParser)
    (arguments : List String) (e : GoError)
    (hne : (p.FindCommand arguments).Command ≠ "")
    (hnr : (p.FindCommand arguments).Command ∉ p.commandSet)
    (_hflag : (parsedFlags p arguments).err = some e) :
    (Parse p arguments).err =
      some ("Unrecognized command '" ++ (p.FindCommand arguments).Command ++ "'") := by
  rw [Parse_of_notFound p arguments _ (commandNotFoundError_eq_some hne hnr)]

/-- C17 (witness): `--state-dir=a --state-dir b nope` on the sample parser. -/
theorem C17_unrecognized_command_beats_flag_error_witness :
    (Parse sampleParser ["--state-dir=a", "--state-dir", "b", "nope"]).err =
      some ("Unrecognized command '" ++
        (sampleParser.FindCommand ["--state-dir=a", "--state-dir", "b", "nope"]).Command
        ++ "'") :=
  C17_unrecognized_command_beats_flag_error sampleParser
    ["--state-dir=a", "--state-dir", "b", "nope"]
    "Invalid usage: cannot specify global 'state-dir' flag more than once."
    (by decide) (by decide) (by decide)

/-! ## C18 -/

/-- C18: for every argument list and every collaborator behaviour, `Parse`
invokes the usage callback at most once, and it invokes it zero times whenever
it returns no error. -/
theorem C18_usage_at_most_once (p : CommandLineParser) (arguments : List String) :
    usageCalls (Parse p arguments).trace ≤ 1 ∧
      ((Parse p arguments).err = none → usageCalls (Parse p arguments).trace = 0) := by
  have hnone : (Parse p arguments).err = none → usageCalls (Parse p arguments).trace = 0 :=
    fun h => (Parse_err_none p arguments h).2.2.2.2
  refine ⟨?_, hnone⟩
  rcases he : (Parse p arguments).err with _ | e
  · rw [hnone he]
    decide
  · rcases (Parse_error_cases p arguments e he).2 with ⟨h1, _⟩ | ⟨h0, _⟩
    · rw [h1]
    · rw [h0]
      decide

/-- C18 (witness): `up` on the sample parser parses without error and without a
usage call. -/
theorem C18_usage_at_most_once_witness :
    usageCalls (Parse sampleParser ["up"]).trace ≤ 1 ∧
      usageCalls (Parse sampleParser ["up"]).trace = 0 :=
  ⟨(C18_usage_at_most_once sampleParser ["up"]).1,
    (C18_usage_at_most_once sampleParser ["up"]).2 (by decide)⟩

/-! ## C19 -/

/-- C19: for every argument list that the ssh flag parser accepts with neither
`--jumpbox` nor `--director` set, and for every state, `SSH.Execute` returns
the error `This command requires the --jumpbox or --director flag.` without
invoking any collaborator: no temp directory is created, no key is fetched, no
file is written, no port is requested and no ssh command is run. -/
theorem C19_ssh_requires_target (s : SSH) (args : List String) (state : State)
    (hok : (s.sshFlagsParse args).err = none)
    (hj : (s.sshFlagsParse args).jumpbox = false)
    (hd : (s.sshFlagsParse args).director = false) :
    (s.Execute args state).err =
        some "This command requires the --jumpbox or --director flag." ∧
      (s.Execute args state).trace = [] := by
  unfold SSH.Execute
  simp [hok, hj, hd]

/-- C19 (witness): `bbl ssh` with no flag, on the sample collaborators. -/
theorem C19_ssh_requires_target_witness :
    (sampleSSH.Execute [] sampleState).err =
        some "This command requires the --jumpbox or --director flag." ∧
      (sampleSSH.Execute [] sampleState).trace = [] :=
  C19_ssh_requires_target sampleSSH [] sampleState (by decide) (by decide) (by decide)

/-! ## C20 -/

/-- C20: for every state and every argument list that sets `--jumpbox`
(whether or not `--director` is also set), when temp-dir creation, jumpbox key
retrieval and key-file write succeed, `SSH.Execute` runs the ssh command
exactly once with arguments `["-o StrictHostKeyChecking=no -o
ServerAliveInterval=300", "jumpbox@H", "-i", K]`, where H is the part of
`state.Jumpbox.URL` before its first `:` and K is the temp dir joined with
`jumpbox-private-key`; it returns that run's result, and never fetches the
director key or requests a port. -/
theorem C20_ssh_jumpbox (s : SSH) (args : List String) (state : State)
    (tempDir jumpboxKey : String)
    (hok : (s.sshFlagsParse args).err = none)
    (hj : (s.sshFlagsParse args).jumpbox = true)
    (htmp : s.TempDir "" "" = (tempDir, none))
    (hkey : s.keyGetterGet "jumpbox" = (jumpboxKey, none))
    (hwrite : s.WriteFile (s.filepathJoin tempDir "jumpbox-private-key") jumpboxKey 0o600
      = none) :
    (s.Execute args state).trace =
        [SSHEvent.tempDir "" "", SSHEvent.keyGet "jumpbox",
          SSHEvent.writeFile (s.filepathJoin tempDir "jumpbox-private-key") jumpboxKey 0o600,
          SSHEvent.run
            ["-o StrictHostKeyChecking=no -o ServerAliveInterval=300",
              "jumpbox@" ++
                String.mk (state.Jumpbox.URL.data.takeWhile (fun c => decide (c ≠ ':'))),
              "-i", s.filepathJoin tempDir "jumpbox-private-key"]] ∧
      (s.Execute args state).err =
        s.cmdRun
          ["-o StrictHostKeyChecking=no -o ServerAliveInterval=300",
            "jumpbox@" ++
              String.mk (state.Jumpbox.URL.data.takeWhile (fun c => decide (c ≠ ':'))),
            "-i", s.filepathJoin tempDir "jumpbox-private-key"] ∧
      runCalls (s.Execute args state).trace = 1 ∧
      SSHEvent.keyGet "director" ∉ (s.Execute args state).trace ∧
      SSHEvent.getPort ∉ (s.Execute args state).trace := by
  have hexec : s.Execute args state =
      { err := s.cmdRun
          ["-o StrictHostKeyChecking=no -o ServerAliveInterval=300",
            "jumpbox@" ++
              String.mk (state.Jumpbox.URL.data.takeWhile (fun c => decide (c ≠ ':'))),
            "-i", s.filepathJoin tempDir "jumpbox-private-key"],
        trace :=
          [SSHEvent.tempDir "" "", SSHEvent.keyGet "jumpbox",
            SSHEvent.writeFile (s.filepathJoin tempDir "jumpbox-private-key") jumpboxKey 0o600,
            SSHEvent.run
              ["-o StrictHostKeyChecking=no -o ServerAliveInterval=300",
                "jumpbox@" ++
                  String.mk (state.Jumpbox.URL.data.takeWhile (fun c => decide (c ≠ ':'))),
                "-i", s.filepathJoin tempDir "jumpbox-private-key"]] } := by
    unfold SSH.Execute
    simp only [hok, hj, htmp, hkey, hwrite, stringsSplit_headD]
    rfl
  rw [hexec]
  refine ⟨rfl, rfl, ?_, ?_, ?_⟩
  · simp [runCalls]
  · simp
  · simp

/-- C20 (witness): `bbl ssh --jumpbox --director` on the sample collaborators
and state: one run, to `jumpbox@10.0.0.5` with the key at
`/tmp/bbl/jumpbox-private-key`. -/
theorem C20_ssh_jumpbox_witness :
    (sampleSSH.Execute ["--jumpbox", "--director"] sampleState).trace =
        [SSHEvent.tempDir "" "", SSHEvent.keyGet "jumpbox",
          SSHEvent.writeFile (sampleSSH.filepathJoin "/tmp/bbl" "jumpbox-private-key")
            "KEY-jumpbox" 0o600,
          SSHEvent.run
            ["-o StrictHostKeyChecking=no -o ServerAliveInterval=300",
              "jumpbox@" ++
                String.mk (sampleState.Jumpbox.URL.data.takeWhile (fun c => decide (c ≠ ':'))),
              "-i", sampleSSH.filepathJoin "/tmp/bbl" "jumpbox-private-key"]] ∧
      (sampleSSH.Execute ["--jumpbox", "--director"] sampleState).err =
        sampleSSH.cmdRun
          ["-o StrictHostKeyChecking=no -o ServerAliveInterval=300",
            "jumpbox@" ++
              String.mk (sampleState.Jumpbox.URL.data.takeWhile (fun c => decide (c ≠ ':'))),
            "-i", sampleSSH.filepathJoin "/tmp/bbl" "jumpbox-private-key"] ∧
      runCalls (sampleSSH.Execute ["--jumpbox", "--director"] sampleState).trace = 1 ∧
      SSHEvent.keyGet "director" ∉
        (sampleSSH.Execute ["--jumpbox", "--director"] sampleState).trace ∧
      SSHEvent.getPort ∉ (sampleSSH.Execute ["--jumpbox", "--director"] sampleState).trace :=
  C20_ssh_jumpbox sampleSSH ["--jumpbox", "--director"] sampleState "/tmp/bbl" "KEY-jumpbox"
    (by decide) (by decide) (by decide) (by decide) (by decide)

end BoshBootloader
